import Mathlib

/-!
Shallow embedding of the flash-group topology manager of `master/flash_group.go`
(CubeFS master). Pure data is translated directly; the external Consensus Sink
(`Cluster.submit` / `syncUpdateFlashNode` / `syncPutFlashGroupInfo`) is modelled
as an oracle Boolean per submission together with a log of submitted records, so
that persistence ordering and rollback behaviour are observable in the model.
Machine integers (`uint64` IDs, `uint32` slots) are modelled as `Nat`; none of
the verified operations perform arithmetic that can overflow them.
-/

/-- Status of a flash group (`proto.FlashGroupStatus`). -/
inductive FlashGroupStatus
  | Active
  | Inactive
deriving DecidableEq, Repr

/-- A flash node as referenced by `flash_group.go`: network address (unique key),
zone, last report time, activity flag and assigned flash-group ID.
`ReportTime` is a timestamp in the same `Nat` time scale as the `now` parameter
threaded through the operations (Go uses `time.Time` / `time.Since`). -/
structure FlashNode where
  Addr : String
  ZoneName : String
  ReportTime : Nat
  IsActive : Bool
  FlashGroupID : Nat
deriving DecidableEq, Repr

/-- Modelled from the spec: the sentinel value of `FlashGroupID` meaning
"unassigned" (`unusedFlashNodeFlashGroupID`, a constant declared outside
`flash_group.go`). Its concrete value is irrelevant to every claim below;
`0` is used. -/
def unusedFlashNodeFlashGroupID : Nat := 0

/-- The persisted part of a flash group (`flashGroupValue`). -/
structure flashGroupValue where
  ID : Nat
  Slots : List Nat
  Status : FlashGroupStatus
deriving DecidableEq, Repr

/-- A flash group: its persisted value plus its member map. The Go member map
`map[string]*FlashNode` is modelled as the list of member addresses (insertion
ordered, no duplicates maintained by `putFlashNode`); node attributes are read
through the cluster's node registry. -/
structure FlashGroup where
  val : flashGroupValue
  flashNodes : List String
deriving DecidableEq, Repr

/-- A record submitted to the Consensus Sink (`RaftCmd`): either a node-assignment
update (`syncUpdateFlashNode`) or a group add/update/delete record
(`syncPutFlashGroupInfo` with the three op codes). -/
inductive RaftRecord
  | nodeRec (fn : FlashNode)
  | addGroupRec (g : flashGroupValue)
  | updateGroupRec (g : flashGroupValue)
  | deleteGroupRec (g : flashGroupValue)
deriving DecidableEq, Repr

/-- Errors returned by the modelled operations. The Go code builds them with
`fmt.Errorf`; each constructor keeps the data the corresponding message carries,
so the spec's error taxonomy (conflict / stale / persistence / precondition /
insufficient-capacity / batch wrapper) is distinguishable. -/
inductive MErr
  | notFound (key : String)
  | groupNotFound (id : Nat)
  | conflict (addr : String) (currentID targetID : Nat)
  | stale (addr : String) (reportTime : Nat)
  | persistence
  | precondition (id : Nat)
  | insufficient (found expect : Nat)
  | batch (successHosts allHosts : List String) (inner : MErr)
deriving DecidableEq, Repr

/-- The state touched by `flash_group.go`: the flash-node registry, the
flash-group registry of `flashNodeTopo`, the log of records submitted to the
Consensus Sink (each tagged with whether the sink acknowledged it), the
client-off kill-switch value, the serialized client-cache snapshot, and a
counter of client-cache rebuilds. -/
structure Cluster where
  nodes : List FlashNode
  groups : List FlashGroup
  submitLog : List (RaftRecord × Bool)
  clientOff : Option (List Nat)
  clientCache : List Nat
  cacheRebuilds : Nat
deriving DecidableEq, Repr

/-- Node-registry lookup (`Cluster.peekFlashNode`, keyed by address). -/
def peekFlashNode (c : Cluster) (addr : String) : Option FlashNode :=
  c.nodes.find? (fun n => n.Addr == addr)

/-- Replace the registry entry with the given node's address (in Go this is the
in-place mutation of the shared `*FlashNode`). -/
def replaceNode (l : List FlashNode) (fn : FlashNode) : List FlashNode :=
  l.map (fun n => if n.Addr == fn.Addr then fn else n)

/-- Update the node registry of a cluster. -/
def updateNode (c : Cluster) (fn : FlashNode) : Cluster :=
  { c with nodes := replaceNode c.nodes fn }

/-- Group-registry lookup (`flashNodeTopology.getFlashGroup`, keyed by ID). -/
def findGroup (c : Cluster) (fgID : Nat) : Option FlashGroup :=
  c.groups.find? (fun g => g.val.ID == fgID)

/-- Replace the registry entry with the given group's ID (in Go this is the
in-place mutation of the shared `*FlashGroup`). -/
def replaceGroup (c : Cluster) (fg : FlashGroup) : Cluster :=
  { c with groups := c.groups.map (fun g => if g.val.ID == fg.val.ID then fg else g) }

/-- `FlashGroup.putFlashNode`: insert a member address into the member map
(overwriting semantics of the Go map: inserting a present key changes nothing
observable in this model). -/
def FlashGroup.putFlashNode (fg : FlashGroup) (addr : String) : FlashGroup :=
  if addr ∈ fg.flashNodes then fg else { fg with flashNodes := fg.flashNodes ++ [addr] }

/-- `FlashGroup.removeFlashNode`: delete a member address from the member map. -/
def FlashGroup.removeFlashNode (fg : FlashGroup) (addr : String) : FlashGroup :=
  { fg with flashNodes := fg.flashNodes.filter (fun a => a != addr) }

/-- `Cluster.setFlashNodeToFlashGroup` (flash_group.go:343-366). `now` is the
current time and `timeout` stands for the external constant
`_defaultNodeTimeoutDuration`; `sinkOk` is the Consensus Sink's answer to the
single `syncUpdateFlashNode` submission this call can make. On sink failure the
in-memory `FlashGroupID` is rolled back (the registry keeps the original node)
and the failed submission is logged. -/
def setFlashNodeToFlashGroup (now timeout : Nat) (sinkOk : Bool) (addr : String)
    (flashGroupID : Nat) (c : Cluster) : Cluster × Except MErr FlashNode :=
  match peekFlashNode c addr with
  | none => (c, .error (.notFound addr))
  | some fn =>
    if fn.FlashGroupID != unusedFlashNodeFlashGroupID then
      (c, .error (.conflict addr fn.FlashGroupID flashGroupID))
    else if timeout < now - fn.ReportTime then
      (updateNode c { fn with IsActive := false }, .error (.stale addr fn.ReportTime))
    else
      let fn' := { fn with FlashGroupID := flashGroupID }
      if sinkOk then
        ({ updateNode c fn' with submitLog := c.submitLog ++ [(.nodeRec fn', true)] }, .ok fn')
      else
        ({ c with submitLog := c.submitLog ++ [(.nodeRec fn', false)] }, .error .persistence)

/-- `Cluster.addFlashNodeToFlashGroup` (flash_group.go:334-341): run the
persist-then-commit single-node protocol, then insert the node into the group's
member map (only reached on success). -/
def addFlashNodeToFlashGroup (now timeout : Nat) (sinkOk : Bool) (addr : String)
    (fgID : Nat) (c : Cluster) : Cluster × Except MErr Unit :=
  match setFlashNodeToFlashGroup now timeout sinkOk addr fgID c with
  | (c', .error e) => (c', .error e)
  | (c', .ok fn) =>
    match findGroup c' fgID with
    | none => (c', .ok ())
    | some g => (replaceGroup c' (g.putFlashNode fn.Addr), .ok ())

/-- `Cluster.setFlashNodeToUnused` (flash_group.go:448-465): release a node from
`flashGroupID`, with conflict check, sink submission and rollback on failure. -/
def setFlashNodeToUnused (sinkOk : Bool) (addr : String) (flashGroupID : Nat)
    (c : Cluster) : Cluster × Except MErr FlashNode :=
  match peekFlashNode c addr with
  | none => (c, .error (.notFound addr))
  | some fn =>
    if fn.FlashGroupID != flashGroupID then
      (c, .error (.conflict addr fn.FlashGroupID flashGroupID))
    else
      let fn' := { fn with FlashGroupID := unusedFlashNodeFlashGroupID }
      if sinkOk then
        ({ updateNode c fn' with submitLog := c.submitLog ++ [(.nodeRec fn', true)] }, .ok fn')
      else
        ({ c with submitLog := c.submitLog ++ [(.nodeRec fn', false)] }, .error .persistence)

/-- `Cluster.removeFlashNodeFromFlashGroup` (flash_group.go:418-426): release the
node, then (only on success) remove it from the group's member map. -/
def removeFlashNodeFromFlashGroup (sinkOk : Bool) (addr : String) (fgID : Nat)
    (c : Cluster) : Cluster × Except MErr Unit :=
  match setFlashNodeToUnused sinkOk addr fgID c with
  | (c', .error e) => (c', .error e)
  | (c', .ok fn) =>
    match findGroup c' fgID with
    | none => (c', .ok ())
    | some g => (replaceGroup c' (g.removeFlashNode fn.Addr), .ok ())

/-- `strconv.ParseUint(tok, 10, 32)` as used by `getSetSlots`: succeeds exactly
on non-empty all-decimal-digit tokens whose value fits in 32 bits (base 10
admits no sign, prefix or underscore). Strings are embedded as `List Char`. -/
def parseUint32 (s : List Char) : Option Nat :=
  if s = [] then none
  else if s.all Char.isDigit then
    let v := s.foldl (fun acc ch => acc * 10 + (ch.toNat - 48)) 0
    if v < 2 ^ 32 then some v else none
  else none

/-- `strings.Split(s, ",")` on a non-empty string embedded as `List Char`. -/
def splitOnComma : List Char → List (List Char)
  | [] => [[]]
  | ch :: rest =>
    let r := splitOnComma rest
    if ch = ',' then [] :: r
    else
      match r with
      | t :: ts => (ch :: t) :: ts
      | [] => [[ch]]

/-- The loop of `getSetSlots` (flash_group.go:514-525): tokens that fail to parse
are skipped; once the accumulated list has reached `maxCount` entries
(`defaultFlashGroupSlotsCount`, a constant declared outside this file, threaded
here as a parameter), the next successfully parsed token makes the function
return what it has. -/
def getSetSlotsLoop (maxCount : Nat) : List (List Char) → List Nat → List Nat
  | [], slots => slots
  | tok :: rest, slots =>
    match parseUint32 tok with
    | none => getSetSlotsLoop maxCount rest slots
    | some v =>
      if maxCount ≤ slots.length then slots
      else getSetSlotsLoop maxCount rest (slots ++ [v])

/-- `getSetSlots` (flash_group.go:509-527): split the `slots` form value on
commas and run the collection loop; an absent/empty value yields no slots. -/
def getSetSlots (maxCount : Nat) (slotStr : List Char) : List Nat :=
  if slotStr = [] then []
  else getSetSlotsLoop maxCount (splitOnComma slotStr) []

/-- Modelled from the spec: `rebuildClientCache` / `updateClientCache` (declared
outside `flash_group.go`) recomputes the serialized snapshot of all active
groups and atomically swaps it in; the snapshot content is opaque to the claims,
so it is represented by the active groups' IDs, and a rebuild counter records
that a rebuild was triggered. -/
def updateClientCache (c : Cluster) : Cluster :=
  { c with
    clientCache := (c.groups.filter (fun g => g.val.Status == .Active)).map (fun g => g.val.ID)
    cacheRebuilds := c.cacheRebuilds + 1 }

/-- Modelled from the spec: `clientEmpty` (declared outside `flash_group.go`),
the prebuilt serialized empty response stored into `clientOff` by the
kill-switch; clients receiving it see the empty topology. -/
def clientEmpty : List Nat := []

/-- `Server.turnFlashGroup` (flash_group.go:143-162), after argument parsing:
enabled stores `nil` into `clientOff`, disabled stores `clientEmpty`; nothing
else is touched and no rebuild happens. -/
def turnFlashGroup (enabled : Bool) (c : Cluster) : Cluster :=
  if enabled then { c with clientOff := none } else { c with clientOff := some clientEmpty }

/-- Modelled from the spec: `flashNodeTopology.getClientResponse` (declared
outside `flash_group.go`) reads the kill-switch value without locking and,
when it is unset, the current serialized snapshot. -/
def getClientResponse (c : Cluster) : List Nat :=
  match c.clientOff with
  | some off => off
  | none => c.clientCache

/-- `Server.clientFlashGroups` (flash_group.go:495-507), after metrics: an empty
cache yields an error reply, otherwise the cached bytes are sent. -/
def clientFlashGroups (c : Cluster) : Except MErr (List Nat) :=
  let cache := getClientResponse c
  if cache.length == 0 then .error (.notFound "flash group response cache is empty")
  else .ok cache

/-- The loop of `Cluster.selectFlashNodesFromZoneAddToFlashGroup`
(flash_group.go:377-384): apply the single-node add protocol to each host in
order, accumulating `successHost`; the first failure stops the loop and wraps
the error with the ordered success list and the full host list. `sink` gives
the Consensus Sink's answer for each host's single submission. -/
def addHostsLoop (now timeout : Nat) (sink : String → Bool) (fgID : Nat)
    (allHosts : List String) :
    List String → List String → Cluster → Cluster × List String × Option MErr
  | [], succ, c => (c, succ, none)
  | h :: t, succ, c =>
    match addFlashNodeToFlashGroup now timeout (sink h) h fgID c with
    | (c', .error e) => (c', succ, some (.batch succ allHosts e))
    | (c', .ok _) => addHostsLoop now timeout sink fgID allHosts t (succ ++ [h]) c'

/-- `Cluster.selectFlashNodesFromZoneAddToFlashGroup` (flash_group.go:368-387).
The zone lookup and `selectFlashNodes` call are external to this file; the
selected host list is therefore a parameter (`newHosts`), and the sequential
add loop is taken from the source. -/
def selectFlashNodesFromZoneAddToFlashGroup (now timeout : Nat) (sink : String → Bool)
    (newHosts : List String) (fgID : Nat) (c : Cluster) : Cluster × Except MErr Unit :=
  match addHostsLoop now timeout sink fgID newHosts newHosts [] c with
  | (c', _, some e) => (c', .error e)
  | (c', _, none) => (c', .ok ())

/-- The loop of `Cluster.removeFlashGroup` (flash_group.go:226-232): release each
host in order, stopping at the first failure and wrapping it with the ordered
success list and the full host list. -/
def removeHostsLoop (sink : String → Bool) (fgID : Nat) (allHosts : List String) :
    List String → List String → Cluster → Cluster × List String × Option MErr
  | [], succ, c => (c, succ, none)
  | h :: t, succ, c =>
    match removeFlashNodeFromFlashGroup (sink h) h fgID c with
    | (c', .error e) => (c', succ, some (.batch succ allHosts e))
    | (c', .ok _) => removeHostsLoop sink fgID allHosts t (succ ++ [h]) c'

/-- The loop of `Cluster.removeFlashNodesFromTargetZone` (flash_group.go:434-443):
like `removeHostsLoop`, but stops successfully once `count` hosts have been
released. -/
def removeZoneHostsLoop (sink : String → Bool) (fgID : Nat) (allHosts : List String)
    (count : Nat) :
    List String → List String → Cluster → Cluster × List String × Option MErr
  | [], succ, c => (c, succ, none)
  | h :: t, succ, c =>
    match removeFlashNodeFromFlashGroup (sink h) h fgID c with
    | (c', .error e) => (c', succ, some (.batch succ allHosts e))
    | (c', .ok _) =>
      if count ≤ (succ ++ [h]).length then (c', succ ++ [h], none)
      else removeZoneHostsLoop sink fgID allHosts count t (succ ++ [h]) c'

/-- `FlashGroup.getTargetZoneFlashNodeHosts` (flash_group.go:73-82): member
addresses whose node lies in the target zone (node attributes live in the
registry that the member map's Go pointers alias). -/
def getTargetZoneFlashNodeHosts (c : Cluster) (fg : FlashGroup) (zone : String) :
    List String :=
  fg.flashNodes.filter (fun a =>
    match peekFlashNode c a with
    | some n => n.ZoneName == zone
    | none => false)

/-- `Cluster.removeFlashNodesFromTargetZone` (flash_group.go:428-446): collect the
group's hosts in the target zone, fail upfront if fewer than `count`, then run
the counted sequential release loop. -/
def removeFlashNodesFromTargetZone (sink : String → Bool) (zone : String) (count : Nat)
    (fgID : Nat) (c : Cluster) : Cluster × Except MErr Unit :=
  match findGroup c fgID with
  | none => (c, .ok ())
  | some fg =>
    let hosts := getTargetZoneFlashNodeHosts c fg zone
    if hosts.length < count then (c, .error (.insufficient hosts.length count))
    else
      match removeZoneHostsLoop sink fgID hosts count hosts [] c with
      | (c', _, some e) => (c', .error e)
      | (c', _, none) => (c', .ok ())

/-- Modelled from the spec: `flashNodeTopology.removeFlashGroup` (declared
outside `flash_group.go`; spec section 4.2 `removeGroup(group, cluster)`)
requires the group to have zero members, persists a group-delete record via the
Consensus Sink, and only on acknowledgement removes the group from the
registry; a sink rejection leaves the registry unchanged. -/
def topoRemoveFlashGroup (sinkOk : Bool) (fgID : Nat) (c : Cluster) :
    Cluster × Except MErr Unit :=
  match findGroup c fgID with
  | none => (c, .error (.groupNotFound fgID))
  | some g =>
    if g.flashNodes.length != 0 then (c, .error (.precondition fgID))
    else if sinkOk then
      ({ c with
         groups := c.groups.filter (fun g0 => g0.val.ID != fgID)
         submitLog := c.submitLog ++ [(.deleteGroupRec g.val, true)] }, .ok ())
    else
      ({ c with submitLog := c.submitLog ++ [(.deleteGroupRec g.val, false)] },
       .error .persistence)

/-- `Cluster.removeFlashGroup` (flash_group.go:222-239): snapshot the member
hosts (`getFlashNodeHosts(false)` returns every member address), release them
sequentially, and only if all succeed delete the group itself through the
topology registry. `groupSinkOk` answers the final group-delete submission. -/
def removeFlashGroup (sink : String → Bool) (groupSinkOk : Bool) (fgID : Nat)
    (c : Cluster) : Cluster × Except MErr Unit :=
  match findGroup c fgID with
  | none => (c, .ok ())
  | some fg =>
    match removeHostsLoop sink fgID fg.flashNodes fg.flashNodes [] c with
    | (c', _, some e) => (c', .error e)
    | (c', _, none) => topoRemoveFlashGroup groupSinkOk fgID c'

/-- `Server.flashGroupAddFlashNode` (flash_group.go:305-332), after argument
parsing: fetch the group, run the single add (`addr = some a`) or the
zone-batch add (`addr = none`, with the externally selected `newHosts`), and
rebuild the client cache only when the operation returned no error. -/
def flashGroupAddFlashNode (now timeout : Nat) (sink : String → Bool) (fgID : Nat)
    (addr : Option String) (newHosts : List String) (c : Cluster) :
    Cluster × Except MErr Unit :=
  match findGroup c fgID with
  | none => (c, .error (.groupNotFound fgID))
  | some _ =>
    match
      (match addr with
       | some a => addFlashNodeToFlashGroup now timeout (sink a) a fgID c
       | none => selectFlashNodesFromZoneAddToFlashGroup now timeout sink newHosts fgID c)
    with
    | (c', .error e) => (c', .error e)
    | (c', .ok _) => (updateClientCache c', .ok ())

/-- `Server.flashGroupRemoveFlashNode` (flash_group.go:389-416), after argument
parsing: fetch the group, run the single release (`addr = some a`) or the
zone-batch release, and rebuild the client cache only when the operation
returned no error. -/
def flashGroupRemoveFlashNode (sink : String → Bool) (fgID : Nat)
    (addr : Option String) (zone : String) (count : Nat) (c : Cluster) :
    Cluster × Except MErr Unit :=
  match findGroup c fgID with
  | none => (c, .error (.groupNotFound fgID))
  | some _ =>
    match
      (match addr with
       | some a => removeFlashNodeFromFlashGroup (sink a) a fgID c
       | none => removeFlashNodesFromTargetZone sink zone count fgID c)
    with
    | (c', .error e) => (c', .error e)
    | (c', .ok _) => (updateClientCache c', .ok ())

/-- `Server.setFlashGroup` (flash_group.go:241-282), after argument parsing and
group fetch: under the group's lock, remember the old status and set the new
one; only when the status changed, submit a group-update record — restoring the
old status and returning the error on rejection, rebuilding the client cache on
acknowledgement. -/
def setFlashGroup (sinkOk : Bool) (fgID : Nat) (fgStatus : FlashGroupStatus)
    (c : Cluster) : Cluster × Except MErr Unit :=
  match findGroup c fgID with
  | none => (c, .error (.groupNotFound fgID))
  | some fg =>
    let oldStatus := fg.val.Status
    let fg' := { fg with val := { fg.val with Status := fgStatus } }
    if oldStatus != fgStatus then
      if sinkOk then
        (updateClientCache
          { replaceGroup c fg' with
            submitLog := c.submitLog ++ [(.updateGroupRec fg'.val, true)] }, .ok ())
      else
        ({ c with submitLog := c.submitLog ++ [(.updateGroupRec fg'.val, false)] },
         .error .persistence)
    else
      (replaceGroup c fg', .ok ())

deriving instance DecidableEq for Except

/-- Concrete fixture: an unassigned, recently reporting node in zone `z1`. -/
def exNode1 : FlashNode :=
  { Addr := "10.0.0.1:17430", ZoneName := "z1", ReportTime := 100, IsActive := true
    FlashGroupID := unusedFlashNodeFlashGroupID }

/-- Concrete fixture: a node already assigned to group 5. -/
def exNode2 : FlashNode :=
  { Addr := "10.0.0.2:17430", ZoneName := "z1", ReportTime := 100, IsActive := true
    FlashGroupID := 5 }

/-- Concrete fixture: an unassigned node whose last report is long past. -/
def exNode3 : FlashNode :=
  { Addr := "10.0.0.3:17430", ZoneName := "z2", ReportTime := 10, IsActive := true
    FlashGroupID := unusedFlashNodeFlashGroupID }

/-- Concrete fixture: group 7, two slots, inactive, no members. -/
def exGroup : FlashGroup :=
  { val := { ID := 7, Slots := [100, 5000], Status := .Inactive }, flashNodes := [] }

/-- Concrete fixture cluster used by the witnesses and counterexamples. -/
def exCluster : Cluster :=
  { nodes := [exNode1, exNode2, exNode3], groups := [exGroup], submitLog := []
    clientOff := none, clientCache := [], cacheRebuilds := 0 }

/-- Concrete fixture: exCluster with node 2 assigned to group 5 replaced by a
cluster where group 7 already holds node 1 as a member. -/
def exGroupWithNode : FlashGroup :=
  { val := { ID := 7, Slots := [100, 5000], Status := .Inactive }
    flashNodes := ["10.0.0.1:17430"] }

/-- Concrete fixture cluster whose group 7 has one member (node 1 assigned). -/
def exClusterWithMember : Cluster :=
  { nodes := [{ exNode1 with FlashGroupID := 7 }, exNode2, exNode3]
    groups := [exGroupWithNode]
    submitLog := [(.nodeRec { exNode1 with FlashGroupID := 7 }, true)]
    clientOff := none, clientCache := [], cacheRebuilds := 0 }

/-- A node-assignment record for address `a` with assigned group `i` was
acknowledged by the Consensus Sink. -/
def persistedIn (log : List (RaftRecord × Bool)) (a : String) (i : Nat) : Prop :=
  ∃ fn, (RaftRecord.nodeRec fn, true) ∈ log ∧ fn.Addr = a ∧ fn.FlashGroupID = i

/-- The membership invariant of the spec: every address in a group's member map
names a registered node whose assignment field equals the group's ID and whose
assignment was acknowledged by the Consensus Sink. -/
def MembershipInv (c : Cluster) : Prop :=
  ∀ g ∈ c.groups, ∀ a ∈ g.flashNodes,
    ∃ fn, peekFlashNode c a = some fn ∧ fn.FlashGroupID = g.val.ID ∧
      persistedIn c.submitLog a g.val.ID

/-- No registered group uses the unassigned sentinel as its ID (group IDs come
from the external cluster-unique ID allocator). -/
def GroupIDsValid (c : Cluster) : Prop :=
  ∀ g ∈ c.groups, g.val.ID ≠ unusedFlashNodeFlashGroupID

/-- Sequentially apply the single-node add protocol to `hosts`, requiring every
step to succeed; used to express that a batch run committed exactly a prefix. -/
def applyAddsOk (now timeout : Nat) (sink : String → Bool) (fgID : Nat) :
    List String → Cluster → Option Cluster
  | [], c => some c
  | h :: t, c =>
    match addFlashNodeToFlashGroup now timeout (sink h) h fgID c with
    | (c', .ok _) => applyAddsOk now timeout sink fgID t c'
    | (_, .error _) => none

/-- Sequentially apply the single-node release protocol to `hosts`, requiring
every step to succeed. -/
def applyRemovesOk (sink : String → Bool) (fgID : Nat) :
    List String → Cluster → Option Cluster
  | [], c => some c
  | h :: t, c =>
    match removeFlashNodeFromFlashGroup (sink h) h fgID c with
    | (c', .ok _) => applyRemovesOk sink fgID t c'
    | (_, .error _) => none

example : getSetSlots 32 "100,5000".toList = [100, 5000] := by decide
example : getSetSlots 2 "1,x,2,3".toList = [1, 2] := by decide
example : getSetSlots 32 "7,7".toList = [7, 7] := by decide
example : getSetSlots 32 "4294967296,1".toList = [1] := by decide
example : getSetSlots 32 "".toList = [] := by decide

theorem setFlashNodeToUnused_mismatch (sinkOk : Bool) (addr : String) (fgID : Nat)
    (c : Cluster) (fn : FlashNode)
    (hpk : peekFlashNode c addr = some fn) (hne : fn.FlashGroupID ≠ fgID) :
    setFlashNodeToUnused sinkOk addr fgID c
      = (c, .error (.conflict addr fn.FlashGroupID fgID)) := by
  unfold setFlashNodeToUnused
  rw [hpk]
  simp [hne]

theorem setFlashNodeToUnused_sink_false (addr : String) (fgID : Nat)
    (c : Cluster) (fn : FlashNode)
    (hpk : peekFlashNode c addr = some fn) (hfg : fn.FlashGroupID = fgID) :
    setFlashNodeToUnused false addr fgID c
      = ({ c with submitLog := c.submitLog ++
            [(.nodeRec { fn with FlashGroupID := unusedFlashNodeFlashGroupID }, false)] },
         .error .persistence) := by
  unfold setFlashNodeToUnused
  rw [hpk]
  simp [hfg]

theorem setFlashNodeToUnused_sink_true (addr : String) (fgID : Nat)
    (c : Cluster) (fn : FlashNode)
    (hpk : peekFlashNode c addr = some fn) (hfg : fn.FlashGroupID = fgID) :
    setFlashNodeToUnused true addr fgID c
      = ({ updateNode c { fn with FlashGroupID := unusedFlashNodeFlashGroupID } with
           submitLog := c.submitLog ++
            [(.nodeRec { fn with FlashGroupID := unusedFlashNodeFlashGroupID }, true)] },
         .ok { fn with FlashGroupID := unusedFlashNodeFlashGroupID }) := by
  unfold setFlashNodeToUnused
  rw [hpk]
  simp [hfg]

theorem removeFlashNodeFromFlashGroup_of_set_ok {sinkOk : Bool} {addr : String}
    {fgID : Nat} {c c₁ : Cluster} {fn' : FlashNode}
    (h : setFlashNodeToUnused sinkOk addr fgID c = (c₁, .ok fn')) :
    removeFlashNodeFromFlashGroup sinkOk addr fgID c
      = (match findGroup c₁ fgID with
         | none => (c₁, .ok ())
         | some g => (replaceGroup c₁ (g.removeFlashNode fn'.Addr), .ok ())) := by
  unfold removeFlashNodeFromFlashGroup
  rw [h]

theorem removeFlashNodeFromFlashGroup_of_set_error {sinkOk : Bool} {addr : String}
    {fgID : Nat} {c c₁ : Cluster} {e : MErr}
    (h : setFlashNodeToUnused sinkOk addr fgID c = (c₁, .error e)) :
    removeFlashNodeFromFlashGroup sinkOk addr fgID c = (c₁, .error e) := by
  unfold removeFlashNodeFromFlashGroup
  rw [h]

theorem persistedIn_mono {log : List (RaftRecord × Bool)} (L : List (RaftRecord × Bool))
    {a : String} {i : Nat} (h : persistedIn log a i) : persistedIn (log ++ L) a i := by
  obtain ⟨fn, hmem, ha, hi⟩ := h
  exact ⟨fn, List.mem_append_left _ hmem, ha, hi⟩

theorem peekFlashNode_addr {c : Cluster} {addr : String} {fn : FlashNode}
    (h : peekFlashNode c addr = some fn) : fn.Addr = addr := by
  have h' : c.nodes.find? (fun n => n.Addr == addr) = some fn := h
  have hp := List.find?_some (p := fun n => n.Addr == addr) (l := c.nodes) h'
  exact beq_iff_eq.mp hp

theorem peekFlashNode_mem {c : Cluster} {addr : String} {fn : FlashNode}
    (h : peekFlashNode c addr = some fn) : fn ∈ c.nodes := by
  have h' : c.nodes.find? (fun n => n.Addr == addr) = some fn := h
  exact List.mem_of_find?_eq_some h'

theorem find?_replaceNode_other (l : List FlashNode) (fn : FlashNode) (a : String)
    (h : a ≠ fn.Addr) :
    (replaceNode l fn).find? (fun n => n.Addr == a) = l.find? (fun n => n.Addr == a) := by
  induction l with
  | nil => rfl
  | cons n t ih =>
    simp only [replaceNode, List.map_cons] at *
    by_cases hn : n.Addr = fn.Addr
    · have h1 : (fn.Addr == a) = false := beq_eq_false_iff_ne.mpr (Ne.symm h)
      have h2 : (n.Addr == a) = false := beq_eq_false_iff_ne.mpr (hn ▸ Ne.symm h)
      rw [if_pos (beq_iff_eq.mpr hn), List.find?_cons_of_neg _ (by simp [h1]),
        List.find?_cons_of_neg _ (by simp [h2])]
      exact ih
    · rw [if_neg (by simp [hn]), List.find?_cons, List.find?_cons]
      cases hna : (n.Addr == a) with
      | true => rfl
      | false => exact ih

theorem find?_replaceNode_self (l : List FlashNode) (fn : FlashNode)
    (h : (l.find? (fun n => n.Addr == fn.Addr)).isSome) :
    (replaceNode l fn).find? (fun n => n.Addr == fn.Addr) = some fn := by
  induction l with
  | nil => simp [List.find?] at h
  | cons n t ih =>
    simp only [replaceNode, List.map_cons]
    by_cases hn : n.Addr = fn.Addr
    · rw [if_pos (beq_iff_eq.mpr hn)]
      exact List.find?_cons_of_pos _ (by simp)
    · rw [if_neg (by simp [hn]), List.find?_cons_of_neg _ (by simp [hn])]
      rw [List.find?_cons_of_neg _ (by simp [hn])] at h
      exact ih h

theorem peekFlashNode_updateNode_other (c : Cluster) (fn : FlashNode) {a : String}
    (h : a ≠ fn.Addr) : peekFlashNode (updateNode c fn) a = peekFlashNode c a :=
  find?_replaceNode_other c.nodes fn a h

theorem peekFlashNode_updateNode_self (c : Cluster) (fn : FlashNode)
    (h : (peekFlashNode c fn.Addr).isSome) :
    peekFlashNode (updateNode c fn) fn.Addr = some fn :=
  find?_replaceNode_self c.nodes fn h

theorem findGroup_id {c : Cluster} {fgID : Nat} {g : FlashGroup}
    (h : findGroup c fgID = some g) : g.val.ID = fgID := by
  have h' : c.groups.find? (fun g0 => g0.val.ID == fgID) = some g := h
  have hp := List.find?_some (p := fun g0 => g0.val.ID == fgID) (l := c.groups) h'
  exact beq_iff_eq.mp hp

theorem findGroup_mem {c : Cluster} {fgID : Nat} {g : FlashGroup}
    (h : findGroup c fgID = some g) : g ∈ c.groups := by
  have h' : c.groups.find? (fun g0 => g0.val.ID == fgID) = some g := h
  exact List.mem_of_find?_eq_some h'

theorem putFlashNode_val (fg : FlashGroup) (a : String) :
    (fg.putFlashNode a).val = fg.val := by
  unfold FlashGroup.putFlashNode
  split <;> rfl

theorem mem_putFlashNode {fg : FlashGroup} {x a : String} :
    a ∈ (fg.putFlashNode x).flashNodes ↔ a ∈ fg.flashNodes ∨ a = x := by
  unfold FlashGroup.putFlashNode
  by_cases hx : x ∈ fg.flashNodes
  · rw [if_pos hx]
    exact ⟨Or.inl, fun h => h.elim id (fun e => e ▸ hx)⟩
  · rw [if_neg hx]
    simp

theorem removeFlashNode_val (fg : FlashGroup) (a : String) :
    (fg.removeFlashNode a).val = fg.val := rfl

/-- C10: the slot parser `getSetSlots` never fails; it returns exactly the
successfully parsed 32-bit decimal tokens in order — unparsable tokens are
silently skipped and duplicates are kept, since `List.filterMap` preserves
them — truncated to the first `maxCount` (`defaultFlashGroupSlotsCount`)
values, so the result has at most `maxCount` entries. -/
theorem getSetSlots_spec (maxCount : Nat) (slotStr : List Char) :
    getSetSlots maxCount slotStr
      = ((splitOnComma slotStr).filterMap parseUint32).take maxCount ∧
    (getSetSlots maxCount slotStr).length ≤ maxCount := by
  have loop : ∀ (toks : List (List Char)) (acc : List Nat),
      getSetSlotsLoop maxCount toks acc
        = acc ++ (toks.filterMap parseUint32).take (maxCount - acc.length) := by
    intro toks
    induction toks with
    | nil => intro acc; simp [getSetSlotsLoop]
    | cons tok rest ih =>
      intro acc
      cases hp : parseUint32 tok with
      | none => simp [getSetSlotsLoop, hp, List.filterMap_cons, ih]
      | some v =>
        by_cases hfull : maxCount ≤ acc.length
        · have h0 : maxCount - acc.length = 0 := Nat.sub_eq_zero_of_le hfull
          simp [getSetSlotsLoop, hp, hfull, List.filterMap_cons, h0]
        · have hlt : acc.length < maxCount := Nat.lt_of_not_le hfull
          have hsucc : maxCount - acc.length = (maxCount - (acc.length + 1)) + 1 := by omega
          simp only [getSetSlotsLoop, hp, if_neg hfull, ih, List.filterMap_cons,
            List.length_append, List.length_cons, List.length_nil, hsucc,
            List.take_succ_cons]
          simp
  constructor
  · by_cases hempty : slotStr = []
    · subst hempty
      simp [getSetSlots, splitOnComma, parseUint32, List.filterMap_cons]
    · rw [getSetSlots, if_neg hempty, loop]
      simp
  · by_cases hempty : slotStr = []
    · subst hempty; simp [getSetSlots]
    · rw [getSetSlots, if_neg hempty, loop]
      simp

theorem setFlashNodeToFlashGroup_sink_true (now timeout : Nat) (addr : String)
    (fgID : Nat) (c : Cluster) (fn : FlashNode)
    (hpk : peekFlashNode c addr = some fn)
    (hun : fn.FlashGroupID = unusedFlashNodeFlashGroupID)
    (hlive : ¬ timeout < now - fn.ReportTime) :
    setFlashNodeToFlashGroup now timeout true addr fgID c
      = ({ updateNode c { fn with FlashGroupID := fgID } with
           submitLog := c.submitLog ++ [(.nodeRec { fn with FlashGroupID := fgID }, true)] },
         .ok { fn with FlashGroupID := fgID }) := by
  unfold setFlashNodeToFlashGroup
  rw [hpk]
  simp [hun, hlive]

theorem setFlashNodeToFlashGroup_sink_false (now timeout : Nat) (addr : String)
    (fgID : Nat) (c : Cluster) (fn : FlashNode)
    (hpk : peekFlashNode c addr = some fn)
    (hun : fn.FlashGroupID = unusedFlashNodeFlashGroupID)
    (hlive : ¬ timeout < now - fn.ReportTime) :
    setFlashNodeToFlashGroup now timeout false addr fgID c
      = ({ c with
           submitLog := c.submitLog ++ [(.nodeRec { fn with FlashGroupID := fgID }, false)] },
         .error .persistence) := by
  unfold setFlashNodeToFlashGroup
  rw [hpk]
  simp [hun, hlive]

theorem addFlashNodeToFlashGroup_of_set_ok {now timeout : Nat} {sinkOk : Bool}
    {addr : String} {fgID : Nat} {c c₁ : Cluster} {fn' : FlashNode}
    (h : setFlashNodeToFlashGroup now timeout sinkOk addr fgID c = (c₁, .ok fn')) :
    addFlashNodeToFlashGroup now timeout sinkOk addr fgID c
      = (match findGroup c₁ fgID with
         | none => (c₁, .ok ())
         | some g => (replaceGroup c₁ (g.putFlashNode fn'.Addr), .ok ())) := by
  unfold addFlashNodeToFlashGroup
  rw [h]

theorem addFlashNodeToFlashGroup_of_set_error {now timeout : Nat} {sinkOk : Bool}
    {addr : String} {fgID : Nat} {c c₁ : Cluster} {e : MErr}
    (h : setFlashNodeToFlashGroup now timeout sinkOk addr fgID c = (c₁, .error e)) :
    addFlashNodeToFlashGroup now timeout sinkOk addr fgID c = (c₁, .error e) := by
  unfold addFlashNodeToFlashGroup
  rw [h]

/-- C1: `addFlashNodeToFlashGroup` preserves the membership invariant — a node
appears in a group's member map only with its assignment field equal to that
group's ID and a sink-acknowledged node-assignment record — and when the
persistence step fails, the node's field is rolled back to the unassigned
sentinel (the whole node registry and every group's member map are returned
unchanged, the member insertion never having happened). -/
theorem addFlashNodeToFlashGroup_inv (now timeout : Nat) (sinkOk : Bool)
    (addr : String) (fgID : Nat) (c c' : Cluster) (r : Except MErr Unit)
    (hids : GroupIDsValid c) (hinv : MembershipInv c)
    (hrun : addFlashNodeToFlashGroup now timeout sinkOk addr fgID c = (c', r)) :
    MembershipInv c' ∧
    (r = .error .persistence →
      c'.nodes = c.nodes ∧ c'.groups = c.groups ∧
      ∃ fn, peekFlashNode c' addr = some fn ∧
        fn.FlashGroupID = unusedFlashNodeFlashGroupID) := by
  cases hpk : peekFlashNode c addr with
  | none =>
    have heq : addFlashNodeToFlashGroup now timeout sinkOk addr fgID c
        = (c, .error (.notFound addr)) := by
      unfold addFlashNodeToFlashGroup setFlashNodeToFlashGroup
      rw [hpk]
    rw [heq] at hrun
    obtain ⟨rfl, rfl⟩ := Prod.mk.injEq .. ▸ hrun
    exact ⟨hinv, by intro h; simp at h⟩
  | some fn =>
    have haddr : fn.Addr = addr := peekFlashNode_addr hpk
    by_cases hassigned : fn.FlashGroupID = unusedFlashNodeFlashGroupID
    · by_cases hstale : timeout < now - fn.ReportTime
      · -- stale branch: mark inactive, no membership or log change
        have heq : addFlashNodeToFlashGroup now timeout sinkOk addr fgID c
            = (updateNode c { fn with IsActive := false },
               .error (.stale addr fn.ReportTime)) := by
          unfold addFlashNodeToFlashGroup setFlashNodeToFlashGroup
          rw [hpk]
          simp [hassigned, hstale]
        rw [heq] at hrun
        obtain ⟨rfl, rfl⟩ := Prod.mk.injEq .. ▸ hrun
        refine ⟨?_, by intro h; simp at h⟩
        intro g hg a ha
        obtain ⟨fn₀, hpk₀, hfld, hper⟩ := hinv g hg a ha
        by_cases ha' : a = addr
        · subst ha'
          rw [hpk] at hpk₀
          obtain rfl : fn = fn₀ := by injection hpk₀
          refine ⟨{ fn with IsActive := false }, ?_, hfld, hper⟩
          have hsome : (peekFlashNode c ({ fn with IsActive := false } : FlashNode).Addr).isSome := by
            show (peekFlashNode c fn.Addr).isSome
            rw [haddr, hpk]; rfl
          have := peekFlashNode_updateNode_self
            c { fn with IsActive := false } hsome
          rw [← haddr]
          exact this
        · have : peekFlashNode (updateNode c { fn with IsActive := false }) a
              = peekFlashNode c a :=
            peekFlashNode_updateNode_other c { fn with IsActive := false }
              (by rw [haddr] at *; exact ha')
          exact ⟨fn₀, this ▸ hpk₀, hfld, hper⟩
      · -- live branch: submit to the sink
        cases sinkOk with
        | false =>
          have heq : addFlashNodeToFlashGroup now timeout false addr fgID c
              = ({ c with submitLog :=
                     c.submitLog ++ [(.nodeRec { fn with FlashGroupID := fgID }, false)] },
                 .error .persistence) := by
            unfold addFlashNodeToFlashGroup
            rw [setFlashNodeToFlashGroup_sink_false now timeout addr fgID c fn hpk hassigned hstale]
          rw [heq] at hrun
          obtain ⟨rfl, rfl⟩ := Prod.mk.injEq .. ▸ hrun
          constructor
          · intro g hg a ha
            obtain ⟨fn₀, hpk₀, hfld, hper⟩ := hinv g hg a ha
            exact ⟨fn₀, hpk₀, hfld, persistedIn_mono _ hper⟩
          · intro _
            exact ⟨rfl, rfl, fn, hpk, hassigned⟩
        | true =>
          have hset := setFlashNodeToFlashGroup_sink_true now timeout addr fgID c fn
            hpk hassigned hstale
          cases hfg : findGroup c fgID with
          | none =>
            have hfg' : findGroup { updateNode c { fn with FlashGroupID := fgID } with
                submitLog := c.submitLog ++ [(.nodeRec { fn with FlashGroupID := fgID }, true)] } fgID
                = (none : Option FlashGroup) := hfg
            have heq : addFlashNodeToFlashGroup now timeout true addr fgID c
                = ({ updateNode c { fn with FlashGroupID := fgID } with
                     submitLog := c.submitLog ++ [(.nodeRec { fn with FlashGroupID := fgID }, true)] },
                   .ok ()) := by
              rw [addFlashNodeToFlashGroup_of_set_ok hset, hfg']
            rw [heq] at hrun
            obtain ⟨rfl, rfl⟩ := Prod.mk.injEq .. ▸ hrun
            refine ⟨?_, by intro h; simp at h⟩
            intro g hg a ha
            obtain ⟨fn₀, hpk₀, hfld, hper⟩ := hinv g hg a ha
            by_cases ha' : a = addr
            · subst ha'
              rw [hpk] at hpk₀
              obtain rfl : fn = fn₀ := by injection hpk₀
              exact absurd (hfld ▸ hassigned) (hids g hg)
            · have hne : a ≠ ({ fn with FlashGroupID := fgID } : FlashNode).Addr := by
                show a ≠ fn.Addr
                rw [haddr]; exact ha'
              have hpeek : peekFlashNode
                  ({ updateNode c { fn with FlashGroupID := fgID } with
                     submitLog := c.submitLog ++ [(.nodeRec { fn with FlashGroupID := fgID }, true)] }) a
                  = peekFlashNode c a :=
                peekFlashNode_updateNode_other c { fn with FlashGroupID := fgID } hne
              exact ⟨fn₀, hpeek ▸ hpk₀, hfld, persistedIn_mono _ hper⟩
          | some g₀ =>
            have hid₀ : g₀.val.ID = fgID := findGroup_id hfg
            have hmem₀ : g₀ ∈ c.groups := findGroup_mem hfg
            have hfg' : findGroup { updateNode c { fn with FlashGroupID := fgID } with
                submitLog := c.submitLog ++ [(.nodeRec { fn with FlashGroupID := fgID }, true)] } fgID
                = some g₀ := hfg
            have heq : addFlashNodeToFlashGroup now timeout true addr fgID c
                = (replaceGroup
                     { updateNode c { fn with FlashGroupID := fgID } with
                       submitLog := c.submitLog ++ [(.nodeRec { fn with FlashGroupID := fgID }, true)] }
                     (g₀.putFlashNode fn.Addr),
                   .ok ()) := by
              rw [addFlashNodeToFlashGroup_of_set_ok hset, hfg']
            rw [heq] at hrun
            obtain ⟨rfl, rfl⟩ := Prod.mk.injEq .. ▸ hrun
            refine ⟨?_, by intro h; simp at h⟩
            intro g hg a ha
            have hg' : g ∈ c.groups.map (fun g1 =>
                if g1.val.ID == (g₀.putFlashNode fn.Addr).val.ID then g₀.putFlashNode fn.Addr
                else g1) := hg
            obtain ⟨g₁, hg₁, rfl⟩ := List.mem_map.mp hg'
            by_cases hcond : g₁.val.ID = (g₀.putFlashNode fn.Addr).val.ID
            · rw [if_pos (beq_iff_eq.mpr hcond)] at ha ⊢
              rcases mem_putFlashNode.mp ha with hmem | rfl
              · -- an old member of the target group
                obtain ⟨fn₀, hpk₀, hfld, hper⟩ := hinv g₀ hmem₀ a hmem
                by_cases ha' : a = addr
                · subst ha'
                  rw [hpk] at hpk₀
                  obtain rfl : fn = fn₀ := by injection hpk₀
                  exact absurd (hfld ▸ hassigned) (hids g₀ hmem₀)
                · have hne : a ≠ ({ fn with FlashGroupID := fgID } : FlashNode).Addr := by
                    show a ≠ fn.Addr
                    rw [haddr]; exact ha'
                  have hpeek := peekFlashNode_updateNode_other
                    c { fn with FlashGroupID := fgID } hne
                  refine ⟨fn₀, hpeek ▸ hpk₀, ?_, ?_⟩
                  · rw [putFlashNode_val]; exact hfld
                  · rw [putFlashNode_val]
                    exact persistedIn_mono _ hper
              · -- the freshly inserted node
                refine ⟨{ fn with FlashGroupID := fgID }, ?_, ?_, ?_⟩
                · have hsome : (peekFlashNode c
                      ({ fn with FlashGroupID := fgID } : FlashNode).Addr).isSome := by
                    show (peekFlashNode c fn.Addr).isSome
                    rw [haddr, hpk]; rfl
                  have := peekFlashNode_updateNode_self
                    c { fn with FlashGroupID := fgID } hsome
                  show peekFlashNode (updateNode c { fn with FlashGroupID := fgID })
                    fn.Addr = some { fn with FlashGroupID := fgID }
                  exact this
                · rw [putFlashNode_val, hid₀]
                · rw [putFlashNode_val, hid₀]
                  exact ⟨{ fn with FlashGroupID := fgID },
                    List.mem_append_right _ (List.mem_singleton.mpr rfl), rfl, rfl⟩
            · rw [if_neg (by simp [hcond])] at ha ⊢
              obtain ⟨fn₀, hpk₀, hfld, hper⟩ := hinv g₁ hg₁ a ha
              by_cases ha' : a = addr
              · subst ha'
                rw [hpk] at hpk₀
                obtain rfl : fn = fn₀ := by injection hpk₀
                exact absurd (hfld ▸ hassigned) (hids g₁ hg₁)
              · have hne : a ≠ ({ fn with FlashGroupID := fgID } : FlashNode).Addr := by
                  show a ≠ fn.Addr
                  rw [haddr]; exact ha'
                have hpeek := peekFlashNode_updateNode_other
                  c { fn with FlashGroupID := fgID } hne
                exact ⟨fn₀, hpeek ▸ hpk₀, hfld, persistedIn_mono _ hper⟩
    · -- already assigned: conflict, nothing changes
      have heq : addFlashNodeToFlashGroup now timeout sinkOk addr fgID c
          = (c, .error (.conflict addr fn.FlashGroupID fgID)) := by
        unfold addFlashNodeToFlashGroup setFlashNodeToFlashGroup
        rw [hpk]
        simp [hassigned]
      rw [heq] at hrun
      obtain ⟨rfl, rfl⟩ := Prod.mk.injEq .. ▸ hrun
      exact ⟨hinv, by intro h; simp at h⟩

/-- Witness for C1: starting from the fixture cluster (whose invariant holds
vacuously), the failed-persistence add of node 1 to group 7 keeps the
invariant, returns the node registry and group maps unchanged, and leaves the
node's field at the unassigned sentinel. -/
theorem addFlashNodeToFlashGroup_inv_witness :
    MembershipInv (addFlashNodeToFlashGroup 100 60 false "10.0.0.1:17430" 7 exCluster).1 ∧
    ((addFlashNodeToFlashGroup 100 60 false "10.0.0.1:17430" 7 exCluster).2
        = .error .persistence →
      (addFlashNodeToFlashGroup 100 60 false "10.0.0.1:17430" 7 exCluster).1.nodes
          = exCluster.nodes ∧
      (addFlashNodeToFlashGroup 100 60 false "10.0.0.1:17430" 7 exCluster).1.groups
          = exCluster.groups ∧
      ∃ fn, peekFlashNode (addFlashNodeToFlashGroup 100 60 false "10.0.0.1:17430" 7 exCluster).1
          "10.0.0.1:17430" = some fn ∧
        fn.FlashGroupID = unusedFlashNodeFlashGroupID) := by
  have hids : GroupIDsValid exCluster := by
    intro g hg
    simp [exCluster] at hg
    subst hg
    decide
  have hinv : MembershipInv exCluster := by
    intro g hg a ha
    simp [exCluster] at hg
    subst hg
    simp [exGroup] at ha
  exact addFlashNodeToFlashGroup_inv 100 60 false "10.0.0.1:17430" 7 exCluster _ _
    hids hinv rfl

/-- C2: adding a node whose assignment field is not the unassigned sentinel to
any flash group — including the one it is already assigned to — fails with the
conflict error and returns the cluster state entirely unchanged: no node field,
no member map and no Consensus Sink submission is touched. -/
theorem addFlashNodeToFlashGroup_conflict (now timeout : Nat) (sinkOk : Bool)
    (addr : String) (fgID : Nat) (c : Cluster) (fn : FlashNode)
    (hfind : peekFlashNode c addr = some fn)
    (hassigned : fn.FlashGroupID ≠ unusedFlashNodeFlashGroupID) :
    addFlashNodeToFlashGroup now timeout sinkOk addr fgID c
      = (c, .error (.conflict addr fn.FlashGroupID fgID)) := by
  unfold addFlashNodeToFlashGroup setFlashNodeToFlashGroup
  rw [hfind]
  simp [hassigned]

/-- Witness for C2: node `10.0.0.2:17430` is assigned to group 5; adding it
again — even to group 5 itself — is rejected with the conflict error and the
cluster value is returned unchanged. -/
theorem addFlashNodeToFlashGroup_conflict_witness :
    addFlashNodeToFlashGroup 100 60 true "10.0.0.2:17430" 5 exCluster
      = (exCluster, .error (.conflict "10.0.0.2:17430" 5 5)) :=
  addFlashNodeToFlashGroup_conflict 100 60 true "10.0.0.2:17430" 5 exCluster exNode2
    (by decide) (by decide)

/-- C3: adding an unassigned node whose last report is older than the liveness
threshold fails with the stale error and, as its only side effect, clears the
node's activity flag: the groups, the submission log and the node's assignment
field are untouched. -/
theorem addFlashNodeToFlashGroup_stale (now timeout : Nat) (sinkOk : Bool)
    (addr : String) (fgID : Nat) (c : Cluster) (fn : FlashNode)
    (hfind : peekFlashNode c addr = some fn)
    (hunassigned : fn.FlashGroupID = unusedFlashNodeFlashGroupID)
    (hstale : timeout < now - fn.ReportTime) :
    addFlashNodeToFlashGroup now timeout sinkOk addr fgID c
      = (updateNode c { fn with IsActive := false }, .error (.stale addr fn.ReportTime))
    ∧ (updateNode c { fn with IsActive := false }).groups = c.groups
    ∧ (updateNode c { fn with IsActive := false }).submitLog = c.submitLog
    ∧ peekFlashNode (updateNode c { fn with IsActive := false }) addr
        = some { fn with IsActive := false } := by
  refine ⟨?_, rfl, rfl, ?_⟩
  · unfold addFlashNodeToFlashGroup setFlashNodeToFlashGroup
    rw [hfind]
    simp [hunassigned, hstale]
  · have haddr : fn.Addr = addr := peekFlashNode_addr hfind
    have h : (peekFlashNode c ({ fn with IsActive := false } : FlashNode).Addr).isSome := by
      show (peekFlashNode c fn.Addr).isSome
      rw [haddr, hfind]; rfl
    have := peekFlashNode_updateNode_self c { fn with IsActive := false } h
    rw [← haddr]
    exact this

/-- Witness for C3: node `10.0.0.3:17430` is unassigned but last reported at
time 10; at time 1000 with threshold 60 the add fails stale, marking it
inactive while changing nothing else. -/
theorem addFlashNodeToFlashGroup_stale_witness :
    addFlashNodeToFlashGroup 1000 60 true "10.0.0.3:17430" 7 exCluster
      = (updateNode exCluster { exNode3 with IsActive := false },
         .error (.stale "10.0.0.3:17430" 10))
    ∧ (updateNode exCluster { exNode3 with IsActive := false }).groups = exCluster.groups
    ∧ (updateNode exCluster { exNode3 with IsActive := false }).submitLog
        = exCluster.submitLog
    ∧ peekFlashNode (updateNode exCluster { exNode3 with IsActive := false })
        "10.0.0.3:17430" = some { exNode3 with IsActive := false } :=
  addFlashNodeToFlashGroup_stale 1000 60 true "10.0.0.3:17430" 7 exCluster exNode3
    (by decide) (by decide) (by decide)

/-- C4: `removeFlashNodeFromFlashGroup` fails with the conflict error and is a
complete no-op when the node's assignment field differs from the target group's
ID; when it matches, the field is set to the unassigned sentinel and submitted,
and on sink rejection the field is rolled back to the previous group ID with
the node still in the member map (only the failed submission is logged), while
on acknowledgement the node's field is the sentinel, the record is logged, and
the node is gone from the target group's member map. -/
theorem removeFlashNodeFromFlashGroup_spec (sinkOk : Bool) (addr : String)
    (fgID : Nat) (c : Cluster) (fn : FlashNode)
    (hpk : peekFlashNode c addr = some fn) :
    (fn.FlashGroupID ≠ fgID →
      removeFlashNodeFromFlashGroup sinkOk addr fgID c
        = (c, .error (.conflict addr fn.FlashGroupID fgID))) ∧
    (fn.FlashGroupID = fgID → sinkOk = false →
      removeFlashNodeFromFlashGroup sinkOk addr fgID c
        = ({ c with submitLog := c.submitLog ++
              [(.nodeRec { fn with FlashGroupID := unusedFlashNodeFlashGroupID }, false)] },
           .error .persistence)) ∧
    (fn.FlashGroupID = fgID → sinkOk = true →
      (removeFlashNodeFromFlashGroup sinkOk addr fgID c).2 = .ok () ∧
      peekFlashNode (removeFlashNodeFromFlashGroup sinkOk addr fgID c).1 addr
        = some { fn with FlashGroupID := unusedFlashNodeFlashGroupID } ∧
      (removeFlashNodeFromFlashGroup sinkOk addr fgID c).1.submitLog
        = c.submitLog ++
            [(.nodeRec { fn with FlashGroupID := unusedFlashNodeFlashGroupID }, true)] ∧
      ∀ g ∈ (removeFlashNodeFromFlashGroup sinkOk addr fgID c).1.groups,
        g.val.ID = fgID → addr ∉ g.flashNodes) := by
  have haddr : fn.Addr = addr := peekFlashNode_addr hpk
  refine ⟨?_, ?_, ?_⟩
  · intro hne
    exact removeFlashNodeFromFlashGroup_of_set_error
      (setFlashNodeToUnused_mismatch sinkOk addr fgID c fn hpk hne)
  · intro hfg hsink
    subst hsink
    exact removeFlashNodeFromFlashGroup_of_set_error
      (setFlashNodeToUnused_sink_false addr fgID c fn hpk hfg)
  · intro hfg hsink
    subst hsink
    have hset := setFlashNodeToUnused_sink_true addr fgID c fn hpk hfg
    have heq0 := removeFlashNodeFromFlashGroup_of_set_ok hset
    have hpeek1 : peekFlashNode
        (updateNode c { fn with FlashGroupID := unusedFlashNodeFlashGroupID }) addr
        = some { fn with FlashGroupID := unusedFlashNodeFlashGroupID } := by
      have hsome : (peekFlashNode c
          ({ fn with FlashGroupID := unusedFlashNodeFlashGroupID } : FlashNode).Addr).isSome := by
        show (peekFlashNode c fn.Addr).isSome
        rw [haddr, hpk]; rfl
      have hp := peekFlashNode_updateNode_self
        c { fn with FlashGroupID := unusedFlashNodeFlashGroupID } hsome
      rw [← haddr]
      exact hp
    cases hfg2 : findGroup c fgID with
    | none =>
      have hfg' : findGroup { updateNode c { fn with FlashGroupID := unusedFlashNodeFlashGroupID } with
          submitLog := c.submitLog ++
            [(.nodeRec { fn with FlashGroupID := unusedFlashNodeFlashGroupID }, true)] } fgID
          = (none : Option FlashGroup) := hfg2
      have heq : removeFlashNodeFromFlashGroup true addr fgID c
          = ({ updateNode c { fn with FlashGroupID := unusedFlashNodeFlashGroupID } with
               submitLog := c.submitLog ++
                [(.nodeRec { fn with FlashGroupID := unusedFlashNodeFlashGroupID }, true)] },
             .ok ()) := by
        rw [heq0, hfg']
      rw [heq]
      refine ⟨rfl, hpeek1, rfl, ?_⟩
      intro g hg hid
      have hfg2' : c.groups.find? (fun g0 => g0.val.ID == fgID) = none := hfg2
      have hnot := List.find?_eq_none.mp hfg2' g hg
      exact absurd (beq_iff_eq.mpr hid) hnot
    | some g₀ =>
      have hid₀ : g₀.val.ID = fgID := findGroup_id hfg2
      have hfg' : findGroup { updateNode c { fn with FlashGroupID := unusedFlashNodeFlashGroupID } with
          submitLog := c.submitLog ++
            [(.nodeRec { fn with FlashGroupID := unusedFlashNodeFlashGroupID }, true)] } fgID
          = some g₀ := hfg2
      have heq : removeFlashNodeFromFlashGroup true addr fgID c
          = (replaceGroup
               { updateNode c { fn with FlashGroupID := unusedFlashNodeFlashGroupID } with
                 submitLog := c.submitLog ++
                  [(.nodeRec { fn with FlashGroupID := unusedFlashNodeFlashGroupID }, true)] }
               (g₀.removeFlashNode
                 ({ fn with FlashGroupID := unusedFlashNodeFlashGroupID } : FlashNode).Addr),
             .ok ()) := by
        rw [heq0, hfg']
      rw [heq]
      refine ⟨rfl, hpeek1, rfl, ?_⟩
      intro g hg hid
      have hg' : g ∈ c.groups.map (fun g1 =>
          if g1.val.ID == (g₀.removeFlashNode
              ({ fn with FlashGroupID := unusedFlashNodeFlashGroupID } : FlashNode).Addr).val.ID
          then g₀.removeFlashNode
              ({ fn with FlashGroupID := unusedFlashNodeFlashGroupID } : FlashNode).Addr
          else g1) := hg
      obtain ⟨g₁, hg₁, rfl⟩ := List.mem_map.mp hg'
      by_cases hcond : g₁.val.ID
          = (g₀.removeFlashNode
              ({ fn with FlashGroupID := unusedFlashNodeFlashGroupID } : FlashNode).Addr).val.ID
      · rw [if_pos (beq_iff_eq.mpr hcond)]
        intro hmem
        have h2 := (List.mem_filter.mp hmem).2
        rw [show ({ fn with FlashGroupID := unusedFlashNodeFlashGroupID } : FlashNode).Addr
            = addr from haddr] at h2
        simp at h2
      · rw [if_neg (by simp [hcond])] at hid
        exact absurd
          (show g₁.val.ID = (g₀.removeFlashNode
              ({ fn with FlashGroupID := unusedFlashNodeFlashGroupID } : FlashNode).Addr).val.ID
            from hid.trans hid₀.symm) hcond

/-- Witness for C4: releasing node 2 (assigned to group 5) from group 7 is a
conflict no-op, and releasing node 1 from group 7 in the member-holding fixture
succeeds, clears its field, logs the record, and empties the member map. -/
theorem removeFlashNodeFromFlashGroup_spec_witness :
    removeFlashNodeFromFlashGroup true "10.0.0.2:17430" 7 exCluster
      = (exCluster, .error (.conflict "10.0.0.2:17430" 5 7)) ∧
    ((removeFlashNodeFromFlashGroup true "10.0.0.1:17430" 7 exClusterWithMember).2
        = .ok () ∧
      peekFlashNode (removeFlashNodeFromFlashGroup true "10.0.0.1:17430" 7
          exClusterWithMember).1 "10.0.0.1:17430"
        = some { { exNode1 with FlashGroupID := 7 } with
                 FlashGroupID := unusedFlashNodeFlashGroupID } ∧
      (removeFlashNodeFromFlashGroup true "10.0.0.1:17430" 7 exClusterWithMember).1.submitLog
        = exClusterWithMember.submitLog ++
            [(.nodeRec { { exNode1 with FlashGroupID := 7 } with
                         FlashGroupID := unusedFlashNodeFlashGroupID }, true)] ∧
      ∀ g ∈ (removeFlashNodeFromFlashGroup true "10.0.0.1:17430" 7
          exClusterWithMember).1.groups,
        g.val.ID = 7 → "10.0.0.1:17430" ∉ g.flashNodes) :=
  ⟨(removeFlashNodeFromFlashGroup_spec true "10.0.0.2:17430" 7 exCluster exNode2
      (by decide)).1 (by decide),
   (removeFlashNodeFromFlashGroup_spec true "10.0.0.1:17430" 7 exClusterWithMember
      { exNode1 with FlashGroupID := 7 } (by decide)).2.2 (by decide) rfl⟩

/-- C8: the topology-level group removal (modelled from the spec, since
`flashNodeTopology.removeFlashGroup` is outside `flash_group.go`) fails with
the precondition error — leaving the registry, member maps and node fields
untouched — whenever the group still has members; once the member map is empty
and the sink acknowledges the delete record, it succeeds and the group is no
longer found in the registry, the node registry being untouched. -/
theorem topoRemoveFlashGroup_spec (sinkOk : Bool) (fgID : Nat) (c : Cluster)
    (fg : FlashGroup) (hfind : findGroup c fgID = some fg) :
    (fg.flashNodes ≠ [] →
      topoRemoveFlashGroup sinkOk fgID c = (c, .error (.precondition fgID))) ∧
    (fg.flashNodes = [] → sinkOk = true →
      (topoRemoveFlashGroup sinkOk fgID c).2 = .ok () ∧
      findGroup (topoRemoveFlashGroup sinkOk fgID c).1 fgID = none ∧
      (topoRemoveFlashGroup sinkOk fgID c).1.nodes = c.nodes) := by
  constructor
  · intro hne
    have hlen : fg.flashNodes.length ≠ 0 := fun h => hne (List.length_eq_zero.mp h)
    unfold topoRemoveFlashGroup
    rw [hfind]
    simp [hlen]
  · intro hnil hsink
    subst hsink
    have heq : topoRemoveFlashGroup true fgID c
        = ({ c with
             groups := c.groups.filter (fun g0 => g0.val.ID != fgID)
             submitLog := c.submitLog ++ [(.deleteGroupRec fg.val, true)] }, .ok ()) := by
      unfold topoRemoveFlashGroup
      rw [hfind]
      simp [hnil]
    rw [heq]
    refine ⟨rfl, ?_, rfl⟩
    show (c.groups.filter (fun g0 => g0.val.ID != fgID)).find?
      (fun g0 => g0.val.ID == fgID) = none
    apply List.find?_eq_none.mpr
    intro g hgmem
    have hne := (List.mem_filter.mp hgmem).2
    simp only [bne_iff_ne, ne_eq] at hne
    simp [hne]

/-- Witness for C8: removing group 7 while it still holds node 1 fails with the
precondition error and changes nothing; removing the empty group 7 of the base
fixture succeeds and makes the group unfindable without touching the nodes. -/
theorem topoRemoveFlashGroup_spec_witness :
    topoRemoveFlashGroup true 7 exClusterWithMember
      = (exClusterWithMember, .error (.precondition 7)) ∧
    ((topoRemoveFlashGroup true 7 exCluster).2 = .ok () ∧
      findGroup (topoRemoveFlashGroup true 7 exCluster).1 7 = none ∧
      (topoRemoveFlashGroup true 7 exCluster).1.nodes = exCluster.nodes) :=
  ⟨(topoRemoveFlashGroup_spec true 7 exClusterWithMember exGroupWithNode
      (by decide)).1 (by decide),
   (topoRemoveFlashGroup_spec true 7 exCluster exGroup (by decide)).2 (by decide) rfl⟩

/-- C9: disabling serving makes the client-topology query deliver the empty
response while the underlying snapshot, rebuild counter and submission log are
untouched; re-enabling restores delivery of the prior snapshot content, again
with no rebuild. (`getClientResponse` and `clientEmpty` are modelled from the
spec; the kill-switch stores of `turnFlashGroup` follow the source.) -/
theorem turnFlashGroup_kill_switch (c : Cluster) :
    getClientResponse (turnFlashGroup false c) = clientEmpty ∧
    clientFlashGroups (turnFlashGroup false c)
      = .error (.notFound "flash group response cache is empty") ∧
    (turnFlashGroup false c).clientCache = c.clientCache ∧
    (turnFlashGroup false c).cacheRebuilds = c.cacheRebuilds ∧
    (turnFlashGroup false c).submitLog = c.submitLog ∧
    getClientResponse (turnFlashGroup true (turnFlashGroup false c)) = c.clientCache ∧
    (turnFlashGroup true (turnFlashGroup false c)).cacheRebuilds = c.cacheRebuilds ∧
    (turnFlashGroup true (turnFlashGroup false c)).clientCache = c.clientCache :=
  ⟨rfl, rfl, rfl, rfl, rfl, rfl, rfl, rfl⟩

theorem addHostsLoop_error (now timeout : Nat) (sink : String → Bool) (fgID : Nat)
    (allHosts : List String) :
    ∀ (hosts acc : List String) (c c' : Cluster) (succ : List String) (e : MErr),
      addHostsLoop now timeout sink fgID allHosts hosts acc c = (c', succ, some e) →
      ∃ S h rest e0 cm, hosts = S ++ h :: rest ∧ succ = acc ++ S ∧
        e = .batch (acc ++ S) allHosts e0 ∧
        applyAddsOk now timeout sink fgID S c = some cm ∧
        addFlashNodeToFlashGroup now timeout (sink h) h fgID cm = (c', .error e0) := by
  intro hosts
  induction hosts with
  | nil =>
    intro acc c c' succ e hrun
    simp [addHostsLoop] at hrun
  | cons h t ih =>
    intro acc c c' succ e hrun
    cases hstep : addFlashNodeToFlashGroup now timeout (sink h) h fgID c with
    | mk c₁ r =>
      cases r with
      | error e₁ =>
        have heq : addHostsLoop now timeout sink fgID allHosts (h :: t) acc c
            = (c₁, acc, some (.batch acc allHosts e₁)) := by
          conv_lhs => unfold addHostsLoop
          rw [hstep]
        rw [heq] at hrun
        injection hrun with h1 h2
        injection h2 with h2a h2b
        injection h2b with h2c
        refine ⟨[], h, t, e₁, c, rfl, by simp [h2a], by simp [h2c.symm], rfl, ?_⟩
        rw [← h1]
        exact hstep
      | ok u =>
        have heq : addHostsLoop now timeout sink fgID allHosts (h :: t) acc c
            = addHostsLoop now timeout sink fgID allHosts t (acc ++ [h]) c₁ := by
          conv_lhs => unfold addHostsLoop
          rw [hstep]
        rw [heq] at hrun
        obtain ⟨S', h', rest', e0, cm, ht, hsucc, he, happ, hfinal⟩ :=
          ih (acc ++ [h]) c₁ c' succ e hrun
        refine ⟨h :: S', h', rest', e0, cm, by simp [ht], by simp [hsucc],
          by simp [he], ?_, hfinal⟩
        unfold applyAddsOk
        rw [hstep]
        exact happ

theorem removeHostsLoop_error (sink : String → Bool) (fgID : Nat)
    (allHosts : List String) :
    ∀ (hosts acc : List String) (c c' : Cluster) (succ : List String) (e : MErr),
      removeHostsLoop sink fgID allHosts hosts acc c = (c', succ, some e) →
      ∃ S h rest e0 cm, hosts = S ++ h :: rest ∧ succ = acc ++ S ∧
        e = .batch (acc ++ S) allHosts e0 ∧
        applyRemovesOk sink fgID S c = some cm ∧
        removeFlashNodeFromFlashGroup (sink h) h fgID cm = (c', .error e0) := by
  intro hosts
  induction hosts with
  | nil =>
    intro acc c c' succ e hrun
    simp [removeHostsLoop] at hrun
  | cons h t ih =>
    intro acc c c' succ e hrun
    cases hstep : removeFlashNodeFromFlashGroup (sink h) h fgID c with
    | mk c₁ r =>
      cases r with
      | error e₁ =>
        have heq : removeHostsLoop sink fgID allHosts (h :: t) acc c
            = (c₁, acc, some (.batch acc allHosts e₁)) := by
          conv_lhs => unfold removeHostsLoop
          rw [hstep]
        rw [heq] at hrun
        injection hrun with h1 h2
        injection h2 with h2a h2b
        injection h2b with h2c
        refine ⟨[], h, t, e₁, c, rfl, by simp [h2a], by simp [h2c.symm], rfl, ?_⟩
        rw [← h1]
        exact hstep
      | ok u =>
        have heq : removeHostsLoop sink fgID allHosts (h :: t) acc c
            = removeHostsLoop sink fgID allHosts t (acc ++ [h]) c₁ := by
          conv_lhs => unfold removeHostsLoop
          rw [hstep]
        rw [heq] at hrun
        obtain ⟨S', h', rest', e0, cm, ht, hsucc, he, happ, hfinal⟩ :=
          ih (acc ++ [h]) c₁ c' succ e hrun
        refine ⟨h :: S', h', rest', e0, cm, by simp [ht], by simp [hsucc],
          by simp [he], ?_, hfinal⟩
        unfold applyRemovesOk
        rw [hstep]
        exact happ

theorem removeHostsLoop_success (sink : String → Bool) (fgID : Nat)
    (allHosts : List String) :
    ∀ (hosts acc : List String) (c c' : Cluster) (succ : List String),
      removeHostsLoop sink fgID allHosts hosts acc c = (c', succ, none) →
      succ = acc ++ hosts ∧ applyRemovesOk sink fgID hosts c = some c' := by
  intro hosts
  induction hosts with
  | nil =>
    intro acc c c' succ hrun
    have heq : removeHostsLoop sink fgID allHosts [] acc c = (c, acc, none) := rfl
    rw [heq] at hrun
    injection hrun with h1 h2
    injection h2 with h2a h2b
    exact ⟨by simp [h2a], by rw [← h1]; rfl⟩
  | cons h t ih =>
    intro acc c c' succ hrun
    cases hstep : removeFlashNodeFromFlashGroup (sink h) h fgID c with
    | mk c₁ r =>
      cases r with
      | error e₁ =>
        have heq : removeHostsLoop sink fgID allHosts (h :: t) acc c
            = (c₁, acc, some (.batch acc allHosts e₁)) := by
          conv_lhs => unfold removeHostsLoop
          rw [hstep]
        rw [heq] at hrun
        injection hrun with h1 h2
        injection h2 with h2a h2b
        exact absurd h2b (by simp)
      | ok u =>
        have heq : removeHostsLoop sink fgID allHosts (h :: t) acc c
            = removeHostsLoop sink fgID allHosts t (acc ++ [h]) c₁ := by
          conv_lhs => unfold removeHostsLoop
          rw [hstep]
        rw [heq] at hrun
        obtain ⟨hsucc, happ⟩ := ih (acc ++ [h]) c₁ c' succ hrun
        refine ⟨by simp [hsucc], ?_⟩
        unfold applyRemovesOk
        rw [hstep]
        exact happ

theorem removeZoneHostsLoop_error (sink : String → Bool) (fgID : Nat)
    (allHosts : List String) (count : Nat) :
    ∀ (hosts acc : List String) (c c' : Cluster) (succ : List String) (e : MErr),
      removeZoneHostsLoop sink fgID allHosts count hosts acc c = (c', succ, some e) →
      ∃ S h rest e0 cm, hosts = S ++ h :: rest ∧ succ = acc ++ S ∧
        e = .batch (acc ++ S) allHosts e0 ∧
        applyRemovesOk sink fgID S c = some cm ∧
        removeFlashNodeFromFlashGroup (sink h) h fgID cm = (c', .error e0) := by
  intro hosts
  induction hosts with
  | nil =>
    intro acc c c' succ e hrun
    simp [removeZoneHostsLoop] at hrun
  | cons h t ih =>
    intro acc c c' succ e hrun
    cases hstep : removeFlashNodeFromFlashGroup (sink h) h fgID c with
    | mk c₁ r =>
      cases r with
      | error e₁ =>
        have heq : removeZoneHostsLoop sink fgID allHosts count (h :: t) acc c
            = (c₁, acc, some (.batch acc allHosts e₁)) := by
          conv_lhs => unfold removeZoneHostsLoop
          rw [hstep]
        rw [heq] at hrun
        injection hrun with h1 h2
        injection h2 with h2a h2b
        injection h2b with h2c
        refine ⟨[], h, t, e₁, c, rfl, by simp [h2a], by simp [h2c.symm], rfl, ?_⟩
        rw [← h1]
        exact hstep
      | ok u =>
        by_cases hcnt : count ≤ (acc ++ [h]).length
        · have heq : removeZoneHostsLoop sink fgID allHosts count (h :: t) acc c
              = (c₁, acc ++ [h], none) := by
            conv_lhs => unfold removeZoneHostsLoop
            rw [hstep]
            show (if count ≤ (acc ++ [h]).length then (c₁, acc ++ [h], none)
              else removeZoneHostsLoop sink fgID allHosts count t (acc ++ [h]) c₁)
              = ((c₁, acc ++ [h], none) : Cluster × List String × Option MErr)
            rw [if_pos hcnt]
          rw [heq] at hrun
          injection hrun with h1 h2
          injection h2 with h2a h2b
          exact absurd h2b (by simp)
        · have heq : removeZoneHostsLoop sink fgID allHosts count (h :: t) acc c
              = removeZoneHostsLoop sink fgID allHosts count t (acc ++ [h]) c₁ := by
            conv_lhs => unfold removeZoneHostsLoop
            rw [hstep]
            show (if count ≤ (acc ++ [h]).length then (c₁, acc ++ [h], none)
              else removeZoneHostsLoop sink fgID allHosts count t (acc ++ [h]) c₁)
              = removeZoneHostsLoop sink fgID allHosts count t (acc ++ [h]) c₁
            rw [if_neg hcnt]
          rw [heq] at hrun
          obtain ⟨S', h', rest', e0, cm, ht, hsucc, he, happ, hfinal⟩ :=
            ih (acc ++ [h]) c₁ c' succ e hrun
          refine ⟨h :: S', h', rest', e0, cm, by simp [ht], by simp [hsucc],
            by simp [he], ?_, hfinal⟩
          unfold applyRemovesOk
          rw [hstep]
          exact happ

/-- C5: each batch operation — zone-based add, zone-based remove, and group
removal's full eviction — applies the single-node protocol sequentially and, on
the first per-host failure, stops at once: the returned error wraps the ordered
list of hosts that succeeded before the failure together with the failing
error, and the final state is exactly the one reached by committing those
hosts and then attempting the failing host — no committed host is rolled
back. (The zone-remove operation may instead fail upfront with the
insufficient-capacity error before touching anything, and group removal may
fail in its final registry step after all evictions committed.) -/
theorem batchOps_sequential_stop_on_first_failure :
    (∀ (now timeout : Nat) (sink : String → Bool) (newHosts : List String)
       (fgID : Nat) (c c' : Cluster) (e : MErr),
      selectFlashNodesFromZoneAddToFlashGroup now timeout sink newHosts fgID c
        = (c', .error e) →
      ∃ S h rest e0 cm, newHosts = S ++ h :: rest ∧
        e = .batch S newHosts e0 ∧
        applyAddsOk now timeout sink fgID S c = some cm ∧
        addFlashNodeToFlashGroup now timeout (sink h) h fgID cm = (c', .error e0)) ∧
    (∀ (sink : String → Bool) (zone : String) (count fgID : Nat)
       (c c' : Cluster) (e : MErr) (fg : FlashGroup),
      findGroup c fgID = some fg →
      removeFlashNodesFromTargetZone sink zone count fgID c = (c', .error e) →
      (c' = c ∧ e = .insufficient (getTargetZoneFlashNodeHosts c fg zone).length count) ∨
      (∃ S h rest e0 cm, getTargetZoneFlashNodeHosts c fg zone = S ++ h :: rest ∧
        e = .batch S (getTargetZoneFlashNodeHosts c fg zone) e0 ∧
        applyRemovesOk sink fgID S c = some cm ∧
        removeFlashNodeFromFlashGroup (sink h) h fgID cm = (c', .error e0))) ∧
    (∀ (sink : String → Bool) (groupSinkOk : Bool) (fgID : Nat)
       (c c' : Cluster) (e : MErr) (fg : FlashGroup),
      findGroup c fgID = some fg →
      removeFlashGroup sink groupSinkOk fgID c = (c', .error e) →
      (∃ S h rest e0 cm, fg.flashNodes = S ++ h :: rest ∧
        e = .batch S fg.flashNodes e0 ∧
        applyRemovesOk sink fgID S c = some cm ∧
        removeFlashNodeFromFlashGroup (sink h) h fgID cm = (c', .error e0)) ∨
      (∃ cm, applyRemovesOk sink fgID fg.flashNodes c = some cm ∧
        topoRemoveFlashGroup groupSinkOk fgID cm = (c', .error e))) := by
  refine ⟨?_, ?_, ?_⟩
  · intro now timeout sink newHosts fgID c c' e hrun
    cases hloop : addHostsLoop now timeout sink fgID newHosts newHosts [] c with
    | mk c₂ p =>
      cases p with
      | mk succ ro =>
        cases ro with
        | none =>
          have heq : selectFlashNodesFromZoneAddToFlashGroup now timeout sink
              newHosts fgID c = (c₂, .ok ()) := by
            conv_lhs => unfold selectFlashNodesFromZoneAddToFlashGroup
            rw [hloop]
          rw [heq] at hrun
          injection hrun with h1 h2
          exact absurd h2 (by simp)
        | some e₂ =>
          have heq : selectFlashNodesFromZoneAddToFlashGroup now timeout sink
              newHosts fgID c = (c₂, .error e₂) := by
            conv_lhs => unfold selectFlashNodesFromZoneAddToFlashGroup
            rw [hloop]
          rw [heq] at hrun
          injection hrun with h1 h2
          injection h2 with h2a
          obtain ⟨S, h, rest, e0, cm, hhosts, hsucc, he, happ, hfinal⟩ :=
            addHostsLoop_error now timeout sink fgID newHosts newHosts [] c c₂
              succ e₂ hloop
          subst h1
          subst h2a
          exact ⟨S, h, rest, e0, cm, hhosts, by simpa using he, happ, hfinal⟩
  · intro sink zone count fgID c c' e fg hfind hrun
    have heq0 : removeFlashNodesFromTargetZone sink zone count fgID c
        = (if (getTargetZoneFlashNodeHosts c fg zone).length < count then
            (c, .error (.insufficient (getTargetZoneFlashNodeHosts c fg zone).length count))
           else
            match removeZoneHostsLoop sink fgID (getTargetZoneFlashNodeHosts c fg zone)
                count (getTargetZoneFlashNodeHosts c fg zone) [] c with
            | (c', _, some e) => (c', .error e)
            | (c', _, none) => (c', .ok ())) := by
      conv_lhs => unfold removeFlashNodesFromTargetZone
      rw [hfind]
    by_cases hlen : (getTargetZoneFlashNodeHosts c fg zone).length < count
    · rw [if_pos hlen] at heq0
      rw [heq0] at hrun
      injection hrun with h1 h2
      injection h2 with h2a
      exact Or.inl ⟨h1.symm, h2a.symm⟩
    · rw [if_neg hlen] at heq0
      cases hloop : removeZoneHostsLoop sink fgID (getTargetZoneFlashNodeHosts c fg zone)
          count (getTargetZoneFlashNodeHosts c fg zone) [] c with
      | mk c₂ p =>
        cases p with
        | mk succ ro =>
          cases ro with
          | none =>
            rw [hloop] at heq0
            rw [heq0] at hrun
            injection hrun with h1 h2
            exact absurd h2 (by simp)
          | some e₂ =>
            rw [hloop] at heq0
            rw [heq0] at hrun
            injection hrun with h1 h2
            injection h2 with h2a
            obtain ⟨S, h, rest, e0, cm, hhosts, hsucc, he, happ, hfinal⟩ :=
              removeZoneHostsLoop_error sink fgID (getTargetZoneFlashNodeHosts c fg zone)
                count (getTargetZoneFlashNodeHosts c fg zone) [] c c₂ succ e₂ hloop
            subst h1
            subst h2a
            exact Or.inr ⟨S, h, rest, e0, cm, hhosts, by simpa using he, happ, hfinal⟩
  · intro sink groupSinkOk fgID c c' e fg hfind hrun
    have heq0 : removeFlashGroup sink groupSinkOk fgID c
        = (match removeHostsLoop sink fgID fg.flashNodes fg.flashNodes [] c with
           | (c', _, some e) => (c', .error e)
           | (c', _, none) => topoRemoveFlashGroup groupSinkOk fgID c') := by
      conv_lhs => unfold removeFlashGroup
      rw [hfind]
    cases hloop : removeHostsLoop sink fgID fg.flashNodes fg.flashNodes [] c with
    | mk c₂ p =>
      cases p with
      | mk succ ro =>
        cases ro with
        | none =>
          rw [hloop] at heq0
          obtain ⟨hsucc, happ⟩ :=
            removeHostsLoop_success sink fgID fg.flashNodes fg.flashNodes [] c c₂
              succ hloop
          refine Or.inr ⟨c₂, happ, ?_⟩
          exact heq0.symm.trans hrun
        | some e₂ =>
          rw [hloop] at heq0
          rw [heq0] at hrun
          injection hrun with h1 h2
          injection h2 with h2a
          obtain ⟨S, h, rest, e0, cm, hhosts, hsucc, he, happ, hfinal⟩ :=
            removeHostsLoop_error sink fgID fg.flashNodes fg.flashNodes [] c c₂
              succ e₂ hloop
          subst h1
          subst h2a
          exact Or.inl ⟨S, h, rest, e0, cm, hhosts, by simpa using he, happ, hfinal⟩

/-- Witness for C5: with an all-acknowledging sink, the zone add of hosts
`[node1, node2]` into group 7 commits node 1, then stops at node 2's conflict:
the error wraps the ordered success list `[node1]` and the final state is the
one after node 1's commit and node 2's failed attempt. -/
theorem batchOps_sequential_stop_on_first_failure_witness :
    ∃ S h rest e0 cm,
      (["10.0.0.1:17430", "10.0.0.2:17430"] : List String) = S ++ h :: rest ∧
      MErr.batch ["10.0.0.1:17430"] ["10.0.0.1:17430", "10.0.0.2:17430"]
          (.conflict "10.0.0.2:17430" 5 7)
        = .batch S ["10.0.0.1:17430", "10.0.0.2:17430"] e0 ∧
      applyAddsOk 100 60 (fun _ => true) 7 S exCluster = some cm ∧
      addFlashNodeToFlashGroup 100 60 ((fun _ => true) h) h 7 cm
        = ((selectFlashNodesFromZoneAddToFlashGroup 100 60 (fun _ => true)
              ["10.0.0.1:17430", "10.0.0.2:17430"] 7 exCluster).1, .error e0) :=
  batchOps_sequential_stop_on_first_failure.1 100 60 (fun _ => true)
    ["10.0.0.1:17430", "10.0.0.2:17430"] 7 exCluster _
    (.batch ["10.0.0.1:17430"] ["10.0.0.1:17430", "10.0.0.2:17430"]
      (.conflict "10.0.0.2:17430" 5 7)) (by decide)

theorem setFlashNodeToFlashGroup_rebuilds (now timeout : Nat) (sinkOk : Bool)
    (addr : String) (fgID : Nat) (c : Cluster) :
    ((setFlashNodeToFlashGroup now timeout sinkOk addr fgID c).1).cacheRebuilds
      = c.cacheRebuilds := by
  unfold setFlashNodeToFlashGroup
  split
  · rfl
  · split
    · rfl
    · split
      · rfl
      · split <;> rfl

theorem addFlashNodeToFlashGroup_rebuilds (now timeout : Nat) (sinkOk : Bool)
    (addr : String) (fgID : Nat) (c : Cluster) :
    ((addFlashNodeToFlashGroup now timeout sinkOk addr fgID c).1).cacheRebuilds
      = c.cacheRebuilds := by
  have hset := setFlashNodeToFlashGroup_rebuilds now timeout sinkOk addr fgID c
  unfold addFlashNodeToFlashGroup
  cases hs : setFlashNodeToFlashGroup now timeout sinkOk addr fgID c with
  | mk c₁ r =>
    rw [hs] at hset
    cases r with
    | error e => exact hset
    | ok fn =>
      show ((match findGroup c₁ fgID with
            | none => (c₁, Except.ok ())
            | some g => (replaceGroup c₁ (g.putFlashNode fn.Addr), Except.ok ())) :
            Cluster × Except MErr Unit).1.cacheRebuilds = c.cacheRebuilds
      cases findGroup c₁ fgID with
      | none => exact hset
      | some g => exact hset

theorem setFlashNodeToUnused_rebuilds (sinkOk : Bool) (addr : String) (fgID : Nat)
    (c : Cluster) :
    ((setFlashNodeToUnused sinkOk addr fgID c).1).cacheRebuilds = c.cacheRebuilds := by
  unfold setFlashNodeToUnused
  split
  · rfl
  · split
    · rfl
    · split <;> rfl

theorem removeFlashNodeFromFlashGroup_rebuilds (sinkOk : Bool) (addr : String)
    (fgID : Nat) (c : Cluster) :
    ((removeFlashNodeFromFlashGroup sinkOk addr fgID c).1).cacheRebuilds
      = c.cacheRebuilds := by
  have hset := setFlashNodeToUnused_rebuilds sinkOk addr fgID c
  unfold removeFlashNodeFromFlashGroup
  cases hs : setFlashNodeToUnused sinkOk addr fgID c with
  | mk c₁ r =>
    rw [hs] at hset
    cases r with
    | error e => exact hset
    | ok fn =>
      show ((match findGroup c₁ fgID with
            | none => (c₁, Except.ok ())
            | some g => (replaceGroup c₁ (g.removeFlashNode fn.Addr), Except.ok ())) :
            Cluster × Except MErr Unit).1.cacheRebuilds = c.cacheRebuilds
      cases findGroup c₁ fgID with
      | none => exact hset
      | some g => exact hset

theorem addHostsLoop_rebuilds (now timeout : Nat) (sink : String → Bool) (fgID : Nat)
    (allHosts : List String) :
    ∀ (hosts acc : List String) (c : Cluster),
      ((addHostsLoop now timeout sink fgID allHosts hosts acc c).1).cacheRebuilds
        = c.cacheRebuilds := by
  intro hosts
  induction hosts with
  | nil => intro acc c; rfl
  | cons h t ih =>
    intro acc c
    have hstep0 := addFlashNodeToFlashGroup_rebuilds now timeout (sink h) h fgID c
    cases hstep : addFlashNodeToFlashGroup now timeout (sink h) h fgID c with
    | mk c₁ r =>
      rw [hstep] at hstep0
      cases r with
      | error e =>
        have heq : addHostsLoop now timeout sink fgID allHosts (h :: t) acc c
            = (c₁, acc, some (.batch acc allHosts e)) := by
          conv_lhs => unfold addHostsLoop
          rw [hstep]
        rw [heq]
        exact hstep0
      | ok u =>
        have heq : addHostsLoop now timeout sink fgID allHosts (h :: t) acc c
            = addHostsLoop now timeout sink fgID allHosts t (acc ++ [h]) c₁ := by
          conv_lhs => unfold addHostsLoop
          rw [hstep]
        rw [heq, ih (acc ++ [h]) c₁]
        exact hstep0

theorem selectFlashNodesFromZoneAddToFlashGroup_rebuilds (now timeout : Nat)
    (sink : String → Bool) (newHosts : List String) (fgID : Nat) (c : Cluster) :
    ((selectFlashNodesFromZoneAddToFlashGroup now timeout sink newHosts fgID c).1).cacheRebuilds
      = c.cacheRebuilds := by
  have hloop0 := addHostsLoop_rebuilds now timeout sink fgID newHosts newHosts [] c
  unfold selectFlashNodesFromZoneAddToFlashGroup
  cases hloop : addHostsLoop now timeout sink fgID newHosts newHosts [] c with
  | mk c₂ p =>
    rw [hloop] at hloop0
    cases p with
    | mk succ ro =>
      cases ro with
      | none => exact hloop0
      | some e => exact hloop0

theorem removeZoneHostsLoop_rebuilds (sink : String → Bool) (fgID : Nat)
    (allHosts : List String) (count : Nat) :
    ∀ (hosts acc : List String) (c : Cluster),
      ((removeZoneHostsLoop sink fgID allHosts count hosts acc c).1).cacheRebuilds
        = c.cacheRebuilds := by
  intro hosts
  induction hosts with
  | nil => intro acc c; rfl
  | cons h t ih =>
    intro acc c
    have hstep0 := removeFlashNodeFromFlashGroup_rebuilds (sink h) h fgID c
    cases hstep : removeFlashNodeFromFlashGroup (sink h) h fgID c with
    | mk c₁ r =>
      rw [hstep] at hstep0
      cases r with
      | error e =>
        have heq : removeZoneHostsLoop sink fgID allHosts count (h :: t) acc c
            = (c₁, acc, some (.batch acc allHosts e)) := by
          conv_lhs => unfold removeZoneHostsLoop
          rw [hstep]
        rw [heq]
        exact hstep0
      | ok u =>
        by_cases hcnt : count ≤ (acc ++ [h]).length
        · have heq : removeZoneHostsLoop sink fgID allHosts count (h :: t) acc c
              = (c₁, acc ++ [h], none) := by
            conv_lhs => unfold removeZoneHostsLoop
            rw [hstep]
            show (if count ≤ (acc ++ [h]).length then (c₁, acc ++ [h], none)
              else removeZoneHostsLoop sink fgID allHosts count t (acc ++ [h]) c₁)
              = ((c₁, acc ++ [h], none) : Cluster × List String × Option MErr)
            rw [if_pos hcnt]
          rw [heq]
          exact hstep0
        · have heq : removeZoneHostsLoop sink fgID allHosts count (h :: t) acc c
              = removeZoneHostsLoop sink fgID allHosts count t (acc ++ [h]) c₁ := by
            conv_lhs => unfold removeZoneHostsLoop
            rw [hstep]
            show (if count ≤ (acc ++ [h]).length then (c₁, acc ++ [h], none)
              else removeZoneHostsLoop sink fgID allHosts count t (acc ++ [h]) c₁)
              = removeZoneHostsLoop sink fgID allHosts count t (acc ++ [h]) c₁
            rw [if_neg hcnt]
          rw [heq, ih (acc ++ [h]) c₁]
          exact hstep0

theorem removeFlashNodesFromTargetZone_rebuilds (sink : String → Bool) (zone : String)
    (count fgID : Nat) (c : Cluster) :
    ((removeFlashNodesFromTargetZone sink zone count fgID c).1).cacheRebuilds
      = c.cacheRebuilds := by
  unfold removeFlashNodesFromTargetZone
  cases hfg : findGroup c fgID with
  | none => rfl
  | some fg =>
    show ((if (getTargetZoneFlashNodeHosts c fg zone).length < count then
            (c, Except.error (.insufficient (getTargetZoneFlashNodeHosts c fg zone).length count))
          else
            match removeZoneHostsLoop sink fgID (getTargetZoneFlashNodeHosts c fg zone) count
                (getTargetZoneFlashNodeHosts c fg zone) [] c with
            | (c', _, some e) => (c', Except.error e)
            | (c', _, none) => (c', Except.ok ())) :
          Cluster × Except MErr Unit).1.cacheRebuilds = c.cacheRebuilds
    by_cases hlen : (getTargetZoneFlashNodeHosts c fg zone).length < count
    · rw [if_pos hlen]
    · rw [if_neg hlen]
      have hloop0 := removeZoneHostsLoop_rebuilds sink fgID
        (getTargetZoneFlashNodeHosts c fg zone) count
        (getTargetZoneFlashNodeHosts c fg zone) [] c
      cases hloop : removeZoneHostsLoop sink fgID (getTargetZoneFlashNodeHosts c fg zone)
          count (getTargetZoneFlashNodeHosts c fg zone) [] c with
      | mk c₂ p =>
        rw [hloop] at hloop0
        cases p with
        | mk succ ro =>
          cases ro with
          | none => exact hloop0
          | some e => exact hloop0

theorem flashGroupAddFlashNode_some_eq {now timeout : Nat} {sink : String → Bool}
    {fgID : Nat} {a : String} {newHosts : List String} {c : Cluster} {g : FlashGroup}
    (hfg : findGroup c fgID = some g) :
    flashGroupAddFlashNode now timeout sink fgID (some a) newHosts c
      = (match addFlashNodeToFlashGroup now timeout (sink a) a fgID c with
         | (c', .error e) => (c', .error e)
         | (c', .ok _) => (updateClientCache c', .ok ())) := by
  conv_lhs => unfold flashGroupAddFlashNode
  rw [hfg]

theorem flashGroupAddFlashNode_zone_eq {now timeout : Nat} {sink : String → Bool}
    {fgID : Nat} {newHosts : List String} {c : Cluster} {g : FlashGroup}
    (hfg : findGroup c fgID = some g) :
    flashGroupAddFlashNode now timeout sink fgID none newHosts c
      = (match selectFlashNodesFromZoneAddToFlashGroup now timeout sink newHosts fgID c with
         | (c', .error e) => (c', .error e)
         | (c', .ok _) => (updateClientCache c', .ok ())) := by
  conv_lhs => unfold flashGroupAddFlashNode
  rw [hfg]

theorem flashGroupRemoveFlashNode_some_eq {sink : String → Bool} {fgID : Nat}
    {a zone : String} {count : Nat} {c : Cluster} {g : FlashGroup}
    (hfg : findGroup c fgID = some g) :
    flashGroupRemoveFlashNode sink fgID (some a) zone count c
      = (match removeFlashNodeFromFlashGroup (sink a) a fgID c with
         | (c', .error e) => (c', .error e)
         | (c', .ok _) => (updateClientCache c', .ok ())) := by
  conv_lhs => unfold flashGroupRemoveFlashNode
  rw [hfg]

theorem flashGroupRemoveFlashNode_zone_eq {sink : String → Bool} {fgID : Nat}
    {zone : String} {count : Nat} {c : Cluster} {g : FlashGroup}
    (hfg : findGroup c fgID = some g) :
    flashGroupRemoveFlashNode sink fgID none zone count c
      = (match removeFlashNodesFromTargetZone sink zone count fgID c with
         | (c', .error e) => (c', .error e)
         | (c', .ok _) => (updateClientCache c', .ok ())) := by
  conv_lhs => unfold flashGroupRemoveFlashNode
  rw [hfg]

/-- Counterexample to C6: a zone-batch add into group 7 whose first host
(node 1) commits — its assignment is in the member map and a sink-acknowledged
record exists — and whose second host (node 2, already assigned to group 5)
fails with a conflict: the handler returns the batch error and the rebuild
counter stays at zero, so no client-cache rebuild is triggered despite a
committed membership change. -/
theorem flashGroupAddFlashNode_partial_failure_no_rebuild :
    (flashGroupAddFlashNode 100 60 (fun _ => true) 7 none
        ["10.0.0.1:17430", "10.0.0.2:17430"] exCluster).1.cacheRebuilds = 0 ∧
    (flashGroupAddFlashNode 100 60 (fun _ => true) 7 none
        ["10.0.0.1:17430", "10.0.0.2:17430"] exCluster).2
      = .error (.batch ["10.0.0.1:17430"] ["10.0.0.1:17430", "10.0.0.2:17430"]
          (.conflict "10.0.0.2:17430" 5 7)) ∧
    peekFlashNode (flashGroupAddFlashNode 100 60 (fun _ => true) 7 none
        ["10.0.0.1:17430", "10.0.0.2:17430"] exCluster).1 "10.0.0.1:17430"
      = some { exNode1 with FlashGroupID := 7 } ∧
    findGroup (flashGroupAddFlashNode 100 60 (fun _ => true) 7 none
        ["10.0.0.1:17430", "10.0.0.2:17430"] exCluster).1 7
      = some { val := { ID := 7, Slots := [100, 5000], Status := .Inactive }
               flashNodes := ["10.0.0.1:17430"] } ∧
    (RaftRecord.nodeRec { exNode1 with FlashGroupID := 7 }, true)
      ∈ (flashGroupAddFlashNode 100 60 (fun _ => true) 7 none
          ["10.0.0.1:17430", "10.0.0.2:17430"] exCluster).1.submitLog := by
  refine ⟨by decide, by decide, by decide, by decide, by decide⟩

/-- C6 (amended): the node add/remove handlers trigger the client-cache rebuild
exactly when the batch (or single) operation returns success; on any error —
including a partial failure whose earlier hosts were committed — the handler
replies with the error and the rebuild counter is unchanged. -/
theorem flashGroupNodeHandlers_rebuild_iff_success :
    (∀ (now timeout : Nat) (sink : String → Bool) (fgID : Nat) (addr : Option String)
       (newHosts : List String) (c c' : Cluster) (r : Except MErr Unit),
      flashGroupAddFlashNode now timeout sink fgID addr newHosts c = (c', r) →
      (r = .ok () → c'.cacheRebuilds = c.cacheRebuilds + 1) ∧
      (∀ e, r = .error e → c'.cacheRebuilds = c.cacheRebuilds)) ∧
    (∀ (sink : String → Bool) (fgID : Nat) (addr : Option String) (zone : String)
       (count : Nat) (c c' : Cluster) (r : Except MErr Unit),
      flashGroupRemoveFlashNode sink fgID addr zone count c = (c', r) →
      (r = .ok () → c'.cacheRebuilds = c.cacheRebuilds + 1) ∧
      (∀ e, r = .error e → c'.cacheRebuilds = c.cacheRebuilds)) := by
  constructor
  · intro now timeout sink fgID addr newHosts c c' r hrun
    cases hfg : findGroup c fgID with
    | none =>
      have heq : flashGroupAddFlashNode now timeout sink fgID addr newHosts c
          = (c, .error (.groupNotFound fgID)) := by
        conv_lhs => unfold flashGroupAddFlashNode
        rw [hfg]
      rw [heq] at hrun
      injection hrun with h1 h2
      subst h1
      subst h2
      exact ⟨by intro h; simp at h, by intro e h; rfl⟩
    | some g =>
      cases addr with
      | some a =>
        have hpres0 := addFlashNodeToFlashGroup_rebuilds now timeout (sink a) a fgID c
        cases hop : addFlashNodeToFlashGroup now timeout (sink a) a fgID c with
        | mk cs rs =>
          rw [hop] at hpres0
          cases rs with
          | error e =>
            have heq : flashGroupAddFlashNode now timeout sink fgID (some a) newHosts c
                = (cs, .error e) := by
              rw [flashGroupAddFlashNode_some_eq hfg, hop]
            rw [heq] at hrun
            injection hrun with h1 h2
            subst h1
            subst h2
            exact ⟨by intro h; simp at h, by intro e0 h; exact hpres0⟩
          | ok u =>
            have heq : flashGroupAddFlashNode now timeout sink fgID (some a) newHosts c
                = (updateClientCache cs, .ok ()) := by
              rw [flashGroupAddFlashNode_some_eq hfg, hop]
            rw [heq] at hrun
            injection hrun with h1 h2
            subst h1
            subst h2
            refine ⟨by intro _; show cs.cacheRebuilds + 1 = c.cacheRebuilds + 1; rw [hpres0],
              by intro e h; simp at h⟩
      | none =>
        have hpres0 := selectFlashNodesFromZoneAddToFlashGroup_rebuilds now timeout
          sink newHosts fgID c
        cases hop : selectFlashNodesFromZoneAddToFlashGroup now timeout sink newHosts
            fgID c with
        | mk cs rs =>
          rw [hop] at hpres0
          cases rs with
          | error e =>
            have heq : flashGroupAddFlashNode now timeout sink fgID none newHosts c
                = (cs, .error e) := by
              rw [flashGroupAddFlashNode_zone_eq hfg, hop]
            rw [heq] at hrun
            injection hrun with h1 h2
            subst h1
            subst h2
            exact ⟨by intro h; simp at h, by intro e0 h; exact hpres0⟩
          | ok u =>
            have heq : flashGroupAddFlashNode now timeout sink fgID none newHosts c
                = (updateClientCache cs, .ok ()) := by
              rw [flashGroupAddFlashNode_zone_eq hfg, hop]
            rw [heq] at hrun
            injection hrun with h1 h2
            subst h1
            subst h2
            refine ⟨by intro _; show cs.cacheRebuilds + 1 = c.cacheRebuilds + 1; rw [hpres0],
              by intro e h; simp at h⟩
  · intro sink fgID addr zone count c c' r hrun
    cases hfg : findGroup c fgID with
    | none =>
      have heq : flashGroupRemoveFlashNode sink fgID addr zone count c
          = (c, .error (.groupNotFound fgID)) := by
        conv_lhs => unfold flashGroupRemoveFlashNode
        rw [hfg]
      rw [heq] at hrun
      injection hrun with h1 h2
      subst h1
      subst h2
      exact ⟨by intro h; simp at h, by intro e h; rfl⟩
    | some g =>
      cases addr with
      | some a =>
        have hpres0 := removeFlashNodeFromFlashGroup_rebuilds (sink a) a fgID c
        cases hop : removeFlashNodeFromFlashGroup (sink a) a fgID c with
        | mk cs rs =>
          rw [hop] at hpres0
          cases rs with
          | error e =>
            have heq : flashGroupRemoveFlashNode sink fgID (some a) zone count c
                = (cs, .error e) := by
              rw [flashGroupRemoveFlashNode_some_eq hfg, hop]
            rw [heq] at hrun
            injection hrun with h1 h2
            subst h1
            subst h2
            exact ⟨by intro h; simp at h, by intro e0 h; exact hpres0⟩
          | ok u =>
            have heq : flashGroupRemoveFlashNode sink fgID (some a) zone count c
                = (updateClientCache cs, .ok ()) := by
              rw [flashGroupRemoveFlashNode_some_eq hfg, hop]
            rw [heq] at hrun
            injection hrun with h1 h2
            subst h1
            subst h2
            refine ⟨by intro _; show cs.cacheRebuilds + 1 = c.cacheRebuilds + 1; rw [hpres0],
              by intro e h; simp at h⟩
      | none =>
        have hpres0 := removeFlashNodesFromTargetZone_rebuilds sink zone count fgID c
        cases hop : removeFlashNodesFromTargetZone sink zone count fgID c with
        | mk cs rs =>
          rw [hop] at hpres0
          cases rs with
          | error e =>
            have heq : flashGroupRemoveFlashNode sink fgID none zone count c
                = (cs, .error e) := by
              rw [flashGroupRemoveFlashNode_zone_eq hfg, hop]
            rw [heq] at hrun
            injection hrun with h1 h2
            subst h1
            subst h2
            exact ⟨by intro h; simp at h, by intro e0 h; exact hpres0⟩
          | ok u =>
            have heq : flashGroupRemoveFlashNode sink fgID none zone count c
                = (updateClientCache cs, .ok ()) := by
              rw [flashGroupRemoveFlashNode_zone_eq hfg, hop]
            rw [heq] at hrun
            injection hrun with h1 h2
            subst h1
            subst h2
            refine ⟨by intro _; show cs.cacheRebuilds + 1 = c.cacheRebuilds + 1; rw [hpres0],
              by intro e h; simp at h⟩

/-- Witness for the amended C6: a fully successful single add of node 1 into
group 7 bumps the rebuild counter by one; the partial-failure zone add of the
counterexample leaves it unchanged. -/
theorem flashGroupNodeHandlers_rebuild_iff_success_witness :
    (flashGroupAddFlashNode 100 60 (fun _ => true) 7 (some "10.0.0.1:17430") []
        exCluster).1.cacheRebuilds = exCluster.cacheRebuilds + 1 ∧
    (flashGroupAddFlashNode 100 60 (fun _ => true) 7 none
        ["10.0.0.1:17430", "10.0.0.2:17430"] exCluster).1.cacheRebuilds
      = exCluster.cacheRebuilds :=
  ⟨(flashGroupNodeHandlers_rebuild_iff_success.1 100 60 (fun _ => true) 7
      (some "10.0.0.1:17430") [] exCluster _ _ rfl).1 (by decide),
   (flashGroupNodeHandlers_rebuild_iff_success.1 100 60 (fun _ => true) 7 none
      ["10.0.0.1:17430", "10.0.0.2:17430"] exCluster _ _ rfl).2
     (.batch ["10.0.0.1:17430"] ["10.0.0.1:17430", "10.0.0.2:17430"]
       (.conflict "10.0.0.2:17430" 5 7)) (by decide)⟩

theorem find?_replaceGroup_self (l : List FlashGroup) (fg : FlashGroup)
    (h : (l.find? (fun g => g.val.ID == fg.val.ID)).isSome) :
    ((l.map (fun g => if g.val.ID == fg.val.ID then fg else g)).find?
      (fun g => g.val.ID == fg.val.ID)) = some fg := by
  induction l with
  | nil => simp [List.find?] at h
  | cons g0 t ih =>
    simp only [List.map_cons]
    by_cases hg : g0.val.ID = fg.val.ID
    · rw [if_pos (beq_iff_eq.mpr hg)]
      exact List.find?_cons_of_pos _ (by simp)
    · rw [if_neg (by simp [hg]), List.find?_cons_of_neg _ (by simp [hg])]
      rw [List.find?_cons_of_neg _ (by simp [hg])] at h
      exact ih h

/-- Counterexample to C7: setting group 7 (currently Inactive) to Inactive
again succeeds without submitting any group-update record to the Consensus
Sink — contradicting the claim that the handler "persists a group-update
record" — and without a rebuild, the state being returned unchanged. -/
theorem setFlashGroup_same_status_no_persist :
    setFlashGroup true 7 .Inactive exCluster = (exCluster, .ok ()) ∧
    (setFlashGroup true 7 .Inactive exCluster).1.submitLog = [] ∧
    (setFlashGroup true 7 .Inactive exCluster).1.cacheRebuilds = 0 := by
  refine ⟨by decide, by decide, by decide⟩

/-- C7 (amended): `setFlashGroup` remembers the old status and sets the new
one; **only when the new status differs from the old** does it persist a
group-update record — restoring the old status (the whole cluster except the
submission log is returned unchanged) and returning the persistence error if
the sink rejects it, and on acknowledgement succeeding with the group's status
updated, the rebuild counter incremented and the acknowledged record logged;
when the status is unchanged it succeeds with no submission and no rebuild. -/
theorem setFlashGroup_spec (sinkOk : Bool) (fgID : Nat)
    (newStatus : FlashGroupStatus) (c : Cluster) (fg : FlashGroup)
    (hfind : findGroup c fgID = some fg)
    (hUnique : ∀ g ∈ c.groups, g.val.ID = fgID → g = fg) :
    (fg.val.Status ≠ newStatus → sinkOk = false →
      setFlashGroup sinkOk fgID newStatus c
        = ({ c with submitLog := c.submitLog ++
              [(.updateGroupRec { fg.val with Status := newStatus }, false)] },
           .error .persistence)) ∧
    (fg.val.Status ≠ newStatus → sinkOk = true →
      (setFlashGroup sinkOk fgID newStatus c).2 = .ok () ∧
      (setFlashGroup sinkOk fgID newStatus c).1.cacheRebuilds = c.cacheRebuilds + 1 ∧
      findGroup (setFlashGroup sinkOk fgID newStatus c).1 fgID
        = some { fg with val := { fg.val with Status := newStatus } } ∧
      (RaftRecord.updateGroupRec { fg.val with Status := newStatus }, true)
        ∈ (setFlashGroup sinkOk fgID newStatus c).1.submitLog) ∧
    (fg.val.Status = newStatus →
      setFlashGroup sinkOk fgID newStatus c = (c, .ok ())) := by
  have hid : fg.val.ID = fgID := findGroup_id hfind
  have hfound : ∀ sOk : Bool, setFlashGroup sOk fgID newStatus c
      = (if (fg.val.Status != newStatus) = true then
          (if sOk = true then
            (updateClientCache
              { replaceGroup c { fg with val := { fg.val with Status := newStatus } } with
                submitLog := c.submitLog ++
                  [(.updateGroupRec { fg.val with Status := newStatus }, true)] },
             .ok ())
          else
            ({ c with submitLog := c.submitLog ++
                [(.updateGroupRec { fg.val with Status := newStatus }, false)] },
             .error .persistence))
        else
          (replaceGroup c { fg with val := { fg.val with Status := newStatus } },
           .ok ())) := by
    intro sOk
    conv_lhs => unfold setFlashGroup
    rw [hfind]
  refine ⟨?_, ?_, ?_⟩
  · intro hne hsink
    subst hsink
    have hb : (fg.val.Status != newStatus) = true := by
      simp [bne_iff_ne]
      exact hne
    rw [hfound false, if_pos hb, if_neg (by simp)]
  · intro hne hsink
    subst hsink
    have hb : (fg.val.Status != newStatus) = true := by
      simp [bne_iff_ne]
      exact hne
    have heq : setFlashGroup true fgID newStatus c
        = (updateClientCache
            { replaceGroup c { fg with val := { fg.val with Status := newStatus } } with
              submitLog := c.submitLog ++
                [(.updateGroupRec { fg.val with Status := newStatus }, true)] },
           .ok ()) := by
      rw [hfound true, if_pos hb, if_pos rfl]
    rw [heq]
    refine ⟨rfl, rfl, ?_, ?_⟩
    · have hfind2 : c.groups.find? (fun g => g.val.ID == fg.val.ID) = some fg := by
        rw [hid]
        exact hfind
      have hsome : (c.groups.find? (fun g =>
          g.val.ID == ({ fg with val := { fg.val with Status := newStatus } } :
            FlashGroup).val.ID)).isSome := by
        show (c.groups.find? (fun g => g.val.ID == fg.val.ID)).isSome
        rw [hfind2]
        rfl
      have hrepl := find?_replaceGroup_self c.groups
        { fg with val := { fg.val with Status := newStatus } } hsome
      show (c.groups.map (fun g => if g.val.ID
          == ({ fg with val := { fg.val with Status := newStatus } } :
            FlashGroup).val.ID
          then { fg with val := { fg.val with Status := newStatus } } else g)).find?
        (fun g => g.val.ID == fgID)
        = some { fg with val := { fg.val with Status := newStatus } }
      rw [show fgID = fg.val.ID from hid.symm]
      exact hrepl
    · show (RaftRecord.updateGroupRec { fg.val with Status := newStatus }, true)
        ∈ c.submitLog ++ [(.updateGroupRec { fg.val with Status := newStatus }, true)]
      exact List.mem_append_right _ (List.mem_singleton.mpr rfl)
  · intro hsame
    subst hsame
    have hb : ¬ ((fg.val.Status != fg.val.Status) = true) := by simp
    rw [hfound sinkOk, if_neg hb]
    have hmap : c.groups.map (fun g => if g.val.ID == fg.val.ID then fg else g)
        = c.groups := by
      have h1 : ∀ g ∈ c.groups,
          (if g.val.ID == fg.val.ID then fg else g) = id g := by
        intro g hg
        by_cases hgid : g.val.ID = fg.val.ID
        · rw [if_pos (beq_iff_eq.mpr hgid)]
          exact (hUnique g hg (hgid.trans hid)).symm
        · rw [if_neg (by simp [hgid])]
          rfl
      rw [List.map_congr_left h1, List.map_id]
    show (replaceGroup c fg, (.ok () : Except MErr Unit)) = (c, .ok ())
    unfold replaceGroup
    rw [hmap]

/-- Witness for the amended C7: flipping group 7 from Inactive to Active with
an acknowledging sink succeeds, increments the rebuild counter, updates the
registered status and logs the acknowledged group-update record. -/
theorem setFlashGroup_spec_witness :
    (setFlashGroup true 7 .Active exCluster).2 = .ok () ∧
    (setFlashGroup true 7 .Active exCluster).1.cacheRebuilds
      = exCluster.cacheRebuilds + 1 ∧
    findGroup (setFlashGroup true 7 .Active exCluster).1 7
      = some { exGroup with val := { exGroup.val with Status := .Active } } ∧
    (RaftRecord.updateGroupRec { exGroup.val with Status := .Active }, true)
      ∈ (setFlashGroup true 7 .Active exCluster).1.submitLog :=
  (setFlashGroup_spec true 7 .Active exCluster exGroup (by decide)
    (by decide)).2.1 (by decide) rfl
